import Mathlib

/-! Back-office API: login throttle, paginated listings and sale creation.

A shallow embedding of
* `src/api/components/authentication/authentication-controller.js` (`login`),
* `src/api/components/{products,sales}/*-service.js` and `*-repository.js`
  and `users/users-repository.js` (the paginated listings and their query
  builders),
* `src/api/components/sales/sales-controller.js` (`createSale`),
followed by the properties established about them.

Conventions of the embedding.
* A JavaScript object used as a dictionary is a function from keys to optional
  values, its own properties. A read `obj[key]` also sees the properties that a
  plain object inherits from `Object.prototype` (`Authentication.read`).
* `Date.now()` is an integer number of milliseconds; every read of the clock is
  an explicit argument.
* Calls into modules that are not part of the sources (the credential service,
  the document store, the regular-expression engine, the date library) are
  explicit arguments or fields.
-/

namespace Authentication

/-! ## `authentication-controller.js` -/

/-- What `await authenticationServices.checkLoginCredentials(email, password)`
does: resolve to a truthy value, resolve to a falsy value, or reject. -/
inductive CredentialCheck where
  | granted
  | denied
  | threw
  deriving DecidableEq, Repr

/-- How `login` ends: `response.status(200).json(..)` or `next(error)` with one
of the three errors that can reach the `catch`. -/
inductive LoginResponse where
  | ok
  | tooManyFailedLoginAttempts
  | invalidCredentials
  | serviceError
  deriving DecidableEq, Repr

/-- The names of the properties that a plain object `{}` inherits from
`Object.prototype`: for these keys `obj[key]` is a function (for `__proto__`,
the prototype object) as long as the object has no own property of that name. -/
def inheritedKeys : List String :=
  ["constructor", "hasOwnProperty", "isPrototypeOf", "propertyIsEnumerable",
   "toLocaleString", "toString", "valueOf", "__defineGetter__", "__defineSetter__",
   "__lookupGetter__", "__lookupSetter__", "__proto__"]

/-- Whether `key` names an inherited property of a plain object. -/
def inherited (key : String) : Bool :=
  inheritedKeys.contains key

/-- What line 44 can store in `failedLoginAttempts`: a number, or the string
that `+ 1` makes of an inherited value, that is, the text of that value followed
by `ones` characters `1`. Such a string is not empty and does not read as a
number. -/
inductive Stored where
  | number (n : Nat)
  | text (ones : Nat)
  deriving DecidableEq, Repr

/-- The value of the expression `obj[key]`: `undefined`, the inherited function
or object, or the own property. -/
inductive Reading (α : Type) where
  | undefined
  | inheritedValue
  | own (value : α)
  deriving DecidableEq, Repr

/-- The expression `obj[key]` on a plain object whose own properties are `obj`. -/
def read {α : Type} (obj : String → Option α) (key : String) : Reading α :=
  match obj key with
  | some value => .own value
  | none => if inherited key then .inheritedValue else .undefined

/-- The assignment `obj[key] = value` of a number or a string. For the key
`__proto__` it reaches the setter inherited from `Object.prototype`, which
ignores such a value: no own property is made. -/
def assign {α : Type} (obj : String → Option α) (key : String) (value : α) :
    String → Option α :=
  fun k => if key = "__proto__" then obj k else if k = key then some value else obj k

/-- The statement `delete obj[key]`: the own property, if any, is removed. -/
def deleteKey {α : Type} (obj : String → Option α) (key : String) : String → Option α :=
  fun k => if k = key then none else obj k

/-- The two module-level dictionaries `failedLoginAttempts` and
`lastLoginAttempt`, as their own properties keyed by email. A number is stored
in `failedLoginAttempts` only under a key that is not inherited: line 44 is the
only write, and it writes a number only when it has read `undefined` or a
number (`number_own`). -/
structure Attempts where
  failedLoginAttempts : String → Option Stored
  lastLoginAttempt : String → Option Int
  number_own : ∀ key n, failedLoginAttempts key = some (.number n) → inherited key = false

/-- The state at module load: `{}` and `{}`. -/
def Attempts.empty : Attempts :=
  { failedLoginAttempts := fun _ => none
    lastLoginAttempt := fun _ => none
    number_own := fun _ _ h => by cases h }

/-- The constant `minutesToReset = 30`. -/
def minutesToReset : Int := 30

/-- The constant `maxLoginAttempt = 5`. -/
def maxLoginAttempt : Nat := 5

/-- The comparison `v >= bound` for `v` read from `failedLoginAttempts`: true
for a number at least `bound`; `undefined`, a function, an object and the
strings of `Stored.text` convert to `NaN`, which compares false. -/
def geNumber (v : Reading Stored) (bound : Nat) : Bool :=
  match v with
  | .own (.number n) => decide (bound ≤ n)
  | _ => false

/-- Truthiness of a value read from `lastLoginAttempt`: `undefined` and `0` are
falsy, a function or an object is truthy. -/
def truthy (v : Reading Int) : Bool :=
  match v with
  | .own t => t != 0
  | .inheritedValue => true
  | .undefined => false

/-- The comparison `now - v < bound` for `v` read from `lastLoginAttempt`; the
difference is `NaN`, and the comparison false, unless `v` is a number. -/
def elapsedBelow (now : Int) (v : Reading Int) (bound : Int) : Bool :=
  match v with
  | .own t => decide (now - t < bound)
  | _ => false

/-- The expression `(v || 0) + 1` for `v` read from `failedLoginAttempts`: one
more than a number (`undefined` and `0` give 1), and a string with one more `1`
when `v` is an inherited function or object or a string. -/
def orZeroPlusOne (v : Reading Stored) : Stored :=
  match v with
  | .undefined => .number 1
  | .own (.number n) => .number (n + 1)
  | .own (.text ones) => .text (ones + 1)
  | .inheritedValue => .text 1

/-- Lines 22-35 of `login`: the check made before the credentials are looked at.
`none` is the `throw` of `TOO_MANY_FAILED_LOGIN_ATTEMPTS`; `some s` is the
state with which execution goes on to line 38. `now` is the value of
`Date.now()` on line 25. -/
def lockoutCheck (s : Attempts) (email : String) (now : Int) : Option Attempts :=
  if geNumber (read s.failedLoginAttempts email) maxLoginAttempt then
    if truthy (read s.lastLoginAttempt email) &&
        elapsedBelow now (read s.lastLoginAttempt email) (minutesToReset * 60 * 1000) then
      none
    else
      some
        { failedLoginAttempts := deleteKey s.failedLoginAttempts email
          lastLoginAttempt := s.lastLoginAttempt
          number_own := fun key n h => by
            unfold deleteKey at h
            split at h
            · cases h
            · exact s.number_own key n h }
  else
    some s

/-- Lines 43-45: a failed credential check is recorded. `later` is the value of
`Date.now()` on line 45. -/
def recordFailure (s : Attempts) (email : String) (later : Int) : Attempts :=
  { failedLoginAttempts :=
      assign s.failedLoginAttempts email (orZeroPlusOne (read s.failedLoginAttempts email))
    lastLoginAttempt := assign s.lastLoginAttempt email later
    number_own := fun key n h => by
      unfold assign at h
      split at h
      · exact s.number_own key n h
      · split at h
        · rename_i hkey
          rw [hkey]
          unfold read at h
          cases hs : s.failedLoginAttempts email with
          | some v =>
            rw [hs] at h
            cases v with
            | number m => exact s.number_own email m hs
            | text ones => simp [orZeroPlusOne] at h
          | none =>
            rw [hs] at h
            cases hi : inherited email with
            | true => simp [hi, orZeroPlusOne] at h
            | false => rfl
        · exact s.number_own key n h }

/-- Lines 53-54: both entries of the email are deleted. -/
def recordSuccess (s : Attempts) (email : String) : Attempts :=
  { failedLoginAttempts := deleteKey s.failedLoginAttempts email
    lastLoginAttempt := deleteKey s.lastLoginAttempt email
    number_own := fun key n h => by
      unfold deleteKey at h
      split at h
      · cases h
      · exact s.number_own key n h }

/-- The body `{ email, password }` of a login request. -/
structure LoginRequest where
  email : String
  password : String
  deriving DecidableEq, Repr

/-- What one call of `login` leaves behind: the dictionaries, the answer, and
the arguments of every call made to `checkLoginCredentials`. -/
structure LoginResult where
  state : Attempts
  response : LoginResponse
  credentialCalls : List (String × String)

/-- The handler `login(request, response, next)`. `check` stands for
`authenticationServices.checkLoginCredentials`, `now` and `later` for the two
reads of `Date.now()` (lines 25 and 45). -/
def login (check : String → String → CredentialCheck) (now later : Int)
    (s : Attempts) (request : LoginRequest) : LoginResult :=
  match lockoutCheck s request.email now with
  | none => { state := s, response := .tooManyFailedLoginAttempts, credentialCalls := [] }
  | some s₁ =>
    match check request.email request.password with
    | .threw =>
      { state := s₁, response := .serviceError
        credentialCalls := [(request.email, request.password)] }
    | .denied =>
      { state := recordFailure s₁ request.email later, response := .invalidCredentials
        credentialCalls := [(request.email, request.password)] }
    | .granted =>
      { state := recordSuccess s₁ request.email, response := .ok
        credentialCalls := [(request.email, request.password)] }

/-- The state after `n` consecutive calls of `login` for `email` whose
credential check is denied; call number `i` (from 0) sends `passwords i` and
reads the clock as `times i = (now, later)`. -/
def failedLogins (s : Attempts) (email : String) (passwords : Nat → String)
    (times : Nat → Int × Int) : Nat → Attempts
  | 0 => s
  | n + 1 =>
    (login (fun _ _ => .denied) (times n).1 (times n).2
      (failedLogins s email passwords times n) ⟨email, passwords n⟩).state

/-- A state in which the email `x@mail.com` has `count` failures, the last one
stamped with the clock value `1000`. -/
def stamped (count : Nat) : Attempts :=
  { failedLoginAttempts := fun k => if k = "x@mail.com" then some (.number count) else none
    lastLoginAttempt := fun k => if k = "x@mail.com" then some 1000 else none
    number_own := fun key n h => by
      by_cases hkey : key = "x@mail.com"
      · rw [hkey]
        decide
      · simp [hkey] at h }

end Authentication

namespace Listing

/-! ## Values shared by the listing code -/

/-- The JavaScript numbers that `Math.ceil(totalCount / page_size)` can be for a
document count and an integer page size: `NaN`, an integer, or `Infinity`. -/
inductive JsNumber where
  | nan
  | int (value : Int)
  | infinity
  deriving DecidableEq, Repr

/-- The comparison `a < b` (false as soon as one side is `NaN`). -/
def JsNumber.lt : JsNumber → JsNumber → Bool
  | .int a, .int b => decide (a < b)
  | .int _, .infinity => true
  | _, _ => false

/-- The expression `Math.ceil(totalCount / page_size)`. The count is that of a
collection and the page size an integer, both far below 2^53, where the
floating-point quotient rounds to the same integer as the exact one. -/
def ceilDiv (totalCount : Nat) (page_size : Int) : JsNumber :=
  if page_size = 0 then
    if totalCount = 0 then .nan else .infinity
  else if 0 < page_size then
    .int (((totalCount : Int) + page_size - 1) / page_size)
  else
    .int (-((totalCount : Int) / (-page_size)))

/-- A condition on one field inside a filter passed to `find` or
`countDocuments`: `{ $regex: new RegExp(source, flags) }`, a plain value, or
`{ $gte: .., $lte: .. }`. -/
inductive Condition where
  | regExp (source flags : String)
  | value (v : String)
  | range (gte lte : String)
  deriving DecidableEq, Repr

/-- A filter object: its keys in insertion order with their conditions. -/
abbrev Filter := List (String × Condition)

/-- A sort object: its keys with their directions. -/
abbrev SortDoc := List (String × Int)

/-- The assignment `obj[key] = value` on an object kept as a key list. -/
def setField {β : Type} (obj : List (String × β)) (key : String) (value : β) :
    List (String × β) :=
  if obj.any (fun kv => kv.1 == key) then
    obj.map (fun kv => if kv.1 == key then (key, value) else kv)
  else
    obj ++ [(key, value)]

/-- The pieces of `s.split(':')` on the characters of `s`. -/
def splitColon : List Char → List (List Char)
  | [] => [[]]
  | c :: cs =>
    if c = ':' then [] :: splitColon cs
    else
      match splitColon cs with
      | [] => [[c]]
      | piece :: pieces => (c :: piece) :: pieces

/-- The destructuring `const [first, second] = s.split(':')`; `second` is
`undefined` when there is no colon. -/
def splitPair (s : String) : String × Option String :=
  match splitColon s.toList with
  | [] => ("", none)
  | [first] => (String.mk first, none)
  | first :: second :: _ => (String.mk first, some (String.mk second))

/-- The libraries the repositories call and that are not part of the sources:
whether `new RegExp(source, 'i')` returns (it throws a `SyntaxError` otherwise),
and `moment(v).startOf('day').format()`, `moment(v).endOf('day').format()`. -/
structure Runtime where
  regExpCompiles : String → Bool
  startOfDay : String → String
  endOfDay : String → String

/-- The exception a listing can end with: the `SyntaxError` of `new RegExp`. -/
inductive Failure where
  | syntaxError (source : String)
  deriving DecidableEq, Repr

/-- The sort object built at the head of `getProducts`
(products-repository.js lines 8-14), `getSales` and `getUserSales`
(sales-repository.js lines 9-15, 159-165) and `getUsers`
(users-repository.js lines 8-14); the four texts are the same. -/
def sortDoc (sort : Option String) : SortDoc :=
  match sort with
  | none => []
  | some s =>
    if s = "" then []
    else [((splitPair s).1, if (splitPair s).2 = some "desc" then -1 else 0)]

/-! ## Stored documents -/

/-- A document of the `products` collection. -/
structure ProductDoc where
  id : String
  name : String
  price : Int
  description : String
  category : String
  stock : Int
  deriving DecidableEq, Repr

/-- A document of the `users` collection. -/
structure UserDoc where
  id : String
  name : String
  email : String
  password : String
  deriving DecidableEq, Repr

/-- A document of the `sales` collection (sales-schema.js); `product` and `user`
are object ids. -/
structure SaleDoc where
  id : String
  date : Int
  product : String
  user : String
  quantity : Int
  address : String
  delivery_status : String
  deriving DecidableEq, Repr

/-- A sale after `.populate('user').populate('product')`: each reference is
replaced by the referenced document, or `null` when there is none. -/
structure PopulatedSale where
  id : String
  date : Int
  product : Option ProductDoc
  user : Option UserDoc
  quantity : Int
  address : String
  delivery_status : String
  deriving DecidableEq, Repr

/-- Modelled from the spec: the document store behind a mongoose model, which is
not part of the sources. A collection is a finite sequence of documents; the
store decides which documents a filter matches and how a sort object reorders a
sequence, a reordering being a permutation. -/
structure Collection (α : Type) where
  docs : List α
  matchesFilter : Filter → α → Bool
  order : SortDoc → List α → List α
  order_perm : ∀ (sort : SortDoc) (l : List α), (order sort l).Perm l

/-- Modelled from the spec: `Model.find(search).sort(sort).limit(limit).skip(skip)`
applies the filter, then the order, then skips `skip` documents, then keeps at
most `limit` of them. Only `0 ≤ skip` and `1 ≤ limit` are meant. -/
def Collection.find {α : Type} (c : Collection α) (search : Filter) (sort : SortDoc)
    (limit skip : Int) : List α :=
  ((c.order sort (c.docs.filter (c.matchesFilter search))).drop skip.toNat).take limit.toNat

/-- Modelled from the spec: `Model.countDocuments(search)` is the number of
documents the filter matches. -/
def Collection.countDocuments {α : Type} (c : Collection α) (search : Filter) : Nat :=
  (c.docs.filter (c.matchesFilter search)).length

/-- The three collections of models/index.js. -/
structure Database where
  users : Collection UserDoc
  products : Collection ProductDoc
  sales : Collection SaleDoc

/-- Modelled from the spec: `.populate('user').populate('product')` on one sale. -/
def Database.populate (db : Database) (sale : SaleDoc) : PopulatedSale :=
  { id := sale.id
    date := sale.date
    product := db.products.docs.find? (fun p => p.id == sale.product)
    user := db.users.docs.find? (fun u => u.id == sale.user)
    quantity := sale.quantity
    address := sale.address
    delivery_status := sale.delivery_status }

/-- The query object the services hand to the repositories; `page_number` and
`page_size` are the integers computed on lines 8-9 of the service functions. -/
structure Query where
  page_number : Int
  page_size : Int
  sort : Option String
  search : Option String
  deriving DecidableEq, Repr

/-- The object a listing service returns. -/
structure Page (α : Type) where
  page_number : Int
  page_size : Int
  count : Nat
  total_pages : JsNumber
  has_previous_page : Bool
  has_next_page : Bool
  data : List α

/-- The computation of `total_pages`, `has_previous_page` and `has_next_page`:
products-service.js lines 10-12 and 36-47, sales-service.js lines 10-12 and 38-49
(`getSales`), 185-187 and 213-224 (`getUserSales`); the three texts are the same. -/
def pageFlags (totalCount : Nat) (page_number page_size : Int) : JsNumber × Bool × Bool :=
  if (ceilDiv totalCount page_size).lt (.int 1) then (.int 1, false, false)
  else if (JsNumber.int 1).lt (ceilDiv totalCount page_size) then
    (ceilDiv totalCount page_size, decide (1 < page_number),
      (JsNumber.int page_number).lt (ceilDiv totalCount page_size))
  else (ceilDiv totalCount page_size, false, false)

end Listing

namespace ProductsRepository

open Listing

/-- The filter built in `getProducts` (lines 16-34) and again, with the same
text, in `getProductsTotal` (lines 50-68). -/
def searchDoc (rt : Runtime) (search : Option String) : Except Failure Filter :=
  match search with
  | none => .ok []
  | some s =>
    if s = "" then .ok []
    else
      match (splitPair s).2 with
      | none => .ok []
      | some searchValue =>
        if searchValue = "" then .ok []
        else if (splitPair s).1 ≠ "price" then
          if rt.regExpCompiles searchValue then
            .ok [((splitPair s).1, .regExp searchValue "i")]
          else .error (.syntaxError searchValue)
        else .ok [((splitPair s).1, .value searchValue)]

/-- The function `getProducts(query)` of products-repository.js. -/
def getProducts (rt : Runtime) (db : Database) (query : Query) :
    Except Failure (List ProductDoc) :=
  match searchDoc rt query.search with
  | .error e => .error e
  | .ok search =>
    .ok (db.products.find search (sortDoc query.sort) query.page_size
      ((query.page_number - 1) * query.page_size))

/-- The function `getProductsTotal(query)` of products-repository.js. -/
def getProductsTotal (rt : Runtime) (db : Database) (search : Option String) :
    Except Failure Nat :=
  match searchDoc rt search with
  | .error e => .error e
  | .ok filter => .ok (db.products.countDocuments filter)

end ProductsRepository

namespace ProductsService

open Listing

/-- The fields of a product that `getProducts` copies into its result. -/
structure ProductView where
  id : String
  name : String
  price : Int
  description : String
  stock : Int
  deriving DecidableEq, Repr

/-- The object pushed to `results` on lines 24-30. -/
def view (product : ProductDoc) : ProductView :=
  { id := product.id, name := product.name, price := product.price
    description := product.description, stock := product.stock }

/-- The function `getProducts(query)` of products-service.js, from line 10 on. -/
def getProducts (rt : Runtime) (db : Database) (query : Query) :
    Except Failure (Page ProductView) :=
  match ProductsRepository.getProducts rt db query with
  | .error e => .error e
  | .ok products =>
    match ProductsRepository.getProductsTotal rt db query.search with
    | .error e => .error e
    | .ok totalCount =>
      .ok { page_number := query.page_number
            page_size := query.page_size
            count := totalCount
            total_pages := (pageFlags totalCount query.page_number query.page_size).1
            has_previous_page := (pageFlags totalCount query.page_number query.page_size).2.1
            has_next_page := (pageFlags totalCount query.page_number query.page_size).2.2
            data := products.map view }

end ProductsService

namespace SalesRepository

open Listing

/-- The filter built in `getSales` (lines 17-38) and again, with the same text,
in `getSalesTotal` (lines 56-77). -/
def searchDoc (rt : Runtime) (search : Option String) : Except Failure Filter :=
  match search with
  | none => .ok []
  | some s =>
    if s = "" then .ok []
    else
      match (splitPair s).2 with
      | none => .ok []
      | some searchValue =>
        if searchValue = "" then .ok []
        else if (splitPair s).1 = "date" then
          .ok (setField [] "date"
            (.range (rt.startOfDay searchValue) (rt.endOfDay searchValue)))
        else if (splitPair s).1 = "delivery_status" then
          .ok (setField [] "delivery_status" (.value searchValue))
        else if rt.regExpCompiles searchValue then
          .ok [((splitPair s).1, .regExp searchValue "i")]
        else .error (.syntaxError searchValue)

/-- The filter built in `getUserSales` (lines 167-188) and again, with the same
text, in `getUserSalesTotal` (lines 206-227). -/
def userSearchDoc (rt : Runtime) (user_id : String) (search : Option String) :
    Except Failure Filter :=
  match search with
  | none => .ok [("user", .value user_id)]
  | some s =>
    if s = "" then .ok [("user", .value user_id)]
    else
      match (splitPair s).2 with
      | none => .ok [("user", .value user_id)]
      | some searchValue =>
        if searchValue = "" ∨ (splitPair s).1 = "user" then .ok [("user", .value user_id)]
        else if (splitPair s).1 = "date" then
          .ok (setField [("user", .value user_id)] "date"
            (.range (rt.startOfDay searchValue) (rt.endOfDay searchValue)))
        else if (splitPair s).1 = "delivery_status" then
          .ok (setField [("user", .value user_id)] "delivery_status" (.value searchValue))
        else if rt.regExpCompiles searchValue then
          .ok [((splitPair s).1, .regExp searchValue "i")]
        else .error (.syntaxError searchValue)

/-- The function `getSales(query)` of sales-repository.js. -/
def getSales (rt : Runtime) (db : Database) (query : Query) :
    Except Failure (List PopulatedSale) :=
  match searchDoc rt query.search with
  | .error e => .error e
  | .ok search =>
    .ok ((db.sales.find search (sortDoc query.sort) query.page_size
      ((query.page_number - 1) * query.page_size)).map db.populate)

/-- The function `getSalesTotal(query)` of sales-repository.js. -/
def getSalesTotal (rt : Runtime) (db : Database) (search : Option String) :
    Except Failure Nat :=
  match searchDoc rt search with
  | .error e => .error e
  | .ok filter => .ok (db.sales.countDocuments filter)

/-- The function `getUserSales(user_id, query)` of sales-repository.js. -/
def getUserSales (rt : Runtime) (db : Database) (user_id : String) (query : Query) :
    Except Failure (List PopulatedSale) :=
  match userSearchDoc rt user_id query.search with
  | .error e => .error e
  | .ok search =>
    .ok ((db.sales.find search (sortDoc query.sort) query.page_size
      ((query.page_number - 1) * query.page_size)).map db.populate)

/-- The function `getUserSalesTotal(user_id, query)` of sales-repository.js. -/
def getUserSalesTotal (rt : Runtime) (db : Database) (user_id : String)
    (search : Option String) : Except Failure Nat :=
  match userSearchDoc rt user_id search with
  | .error e => .error e
  | .ok filter => .ok (db.sales.countDocuments filter)

end SalesRepository

namespace SalesService

open Listing

/-- The fields of a sale that `getSales` and `getUserSales` copy into their
result. -/
structure SaleView where
  id : String
  date : Int
  quantity : Int
  address : String
  delivery_status : String
  product : Option ProductDoc
  user : Option UserDoc
  deriving DecidableEq, Repr

/-- The object pushed to `results` on lines 24-32 (and 199-207). -/
def view (sale : PopulatedSale) : SaleView :=
  { id := sale.id, date := sale.date, quantity := sale.quantity, address := sale.address
    delivery_status := sale.delivery_status, product := sale.product, user := sale.user }

/-- The function `getSales(query)` of sales-service.js, from line 10 on. -/
def getSales (rt : Runtime) (db : Database) (query : Query) :
    Except Failure (Page SaleView) :=
  match SalesRepository.getSales rt db query with
  | .error e => .error e
  | .ok sales =>
    match SalesRepository.getSalesTotal rt db query.search with
    | .error e => .error e
    | .ok totalCount =>
      .ok { page_number := query.page_number
            page_size := query.page_size
            count := totalCount
            total_pages := (pageFlags totalCount query.page_number query.page_size).1
            has_previous_page := (pageFlags totalCount query.page_number query.page_size).2.1
            has_next_page := (pageFlags totalCount query.page_number query.page_size).2.2
            data := sales.map view }

/-- The function `getUserSales(user_id, query)` of sales-service.js, from line
185 on. -/
def getUserSales (rt : Runtime) (db : Database) (user_id : String) (query : Query) :
    Except Failure (Page SaleView) :=
  match SalesRepository.getUserSales rt db user_id query with
  | .error e => .error e
  | .ok sales =>
    match SalesRepository.getUserSalesTotal rt db user_id query.search with
    | .error e => .error e
    | .ok totalCount =>
      .ok { page_number := query.page_number
            page_size := query.page_size
            count := totalCount
            total_pages := (pageFlags totalCount query.page_number query.page_size).1
            has_previous_page := (pageFlags totalCount query.page_number query.page_size).2.1
            has_next_page := (pageFlags totalCount query.page_number query.page_size).2.2
            data := sales.map view }

end SalesService

namespace Listing

/-- A runtime in which every pattern compiles and the day bounds are the value
itself. -/
def sampleRuntime : Runtime :=
  { regExpCompiles := fun _ => true, startOfDay := fun v => v, endOfDay := fun v => v }

/-- A collection whose store matches every document and keeps insertion order. -/
def plainCollection {α : Type} (docs : List α) : Collection α :=
  { docs := docs
    matchesFilter := fun _ _ => true
    order := fun _ l => l
    order_perm := fun _ l => List.Perm.refl l }

/-- The product number `i` of the sample databases. -/
def sampleProduct (i : Nat) : ProductDoc :=
  { id := toString i, name := "item", price := 100, description := "", category := "misc"
    stock := 7 }

/-- A database holding `n` products and nothing else. -/
def sampleDatabase (n : Nat) : Database :=
  { users := plainCollection []
    products := plainCollection ((List.range n).map sampleProduct)
    sales := plainCollection [] }

end Listing

namespace Authentication

/-! ## Sequences of login attempts -/

/-- One call of `login` as seen from outside: the request, what the credential
check does for it, and the two clock reads. -/
structure Attempt where
  request : LoginRequest
  outcome : CredentialCheck
  now : Int
  later : Int
  deriving DecidableEq, Repr

/-- The dictionaries after one call of `login`. -/
def step (s : Attempts) (a : Attempt) : Attempts :=
  (login (fun _ _ => a.outcome) a.now a.later s a.request).state

/-- The dictionaries after the calls of `trace`, one after the other, starting
from the state at module load. -/
def run (trace : List Attempt) : Attempts :=
  trace.foldl step Attempts.empty

end Authentication

namespace Listing

/-! ## Lines 8-9 of the listing services: `parseInt` and the defaults -/

/-- The characters `parseInt` skips at the start of its argument (white space
and line terminators of the language). -/
def isWhiteSpace (c : Char) : Bool :=
  c.toNat = 0x09 || c.toNat = 0x0A || c.toNat = 0x0B || c.toNat = 0x0C || c.toNat = 0x0D ||
  c.toNat = 0x20 || c.toNat = 0xA0 || c.toNat = 0x1680 ||
  (decide (0x2000 ≤ c.toNat) && decide (c.toNat ≤ 0x200A)) ||
  c.toNat = 0x2028 || c.toNat = 0x2029 || c.toNat = 0x202F || c.toNat = 0x205F ||
  c.toNat = 0x3000 || c.toNat = 0xFEFF

/-- The value of a character as a digit, letters counting from ten. -/
def digitValue (c : Char) : Option Nat :=
  if 48 ≤ c.toNat ∧ c.toNat ≤ 57 then some (c.toNat - 48)
  else if 97 ≤ c.toNat ∧ c.toNat ≤ 122 then some (c.toNat - 87)
  else if 65 ≤ c.toNat ∧ c.toNat ≤ 90 then some (c.toNat - 55)
  else none

/-- The values of the longest prefix made of digits of the radix. -/
def leadingDigits (radix : Nat) : List Char → List Nat
  | [] => []
  | c :: cs =>
    match digitValue c with
    | some d => if d < radix then d :: leadingDigits radix cs else []
    | none => []

/-- The sign and radix steps of `parseInt`, on an argument whose leading white
space is gone: `NaN` (here `none`) when no digit follows. -/
def parseIntCore (negative : Bool) (radix : Nat) (cs : List Char) : Option Int :=
  match leadingDigits radix cs with
  | [] => none
  | d :: ds =>
    let magnitude : Nat := (d :: ds).foldl (fun acc digit => acc * radix + digit) 0
    some (if negative then -(magnitude : Int) else (magnitude : Int))

/-- The prefix step of `parseInt`: `0x` or `0X` selects radix 16. -/
def parseIntUnsigned (negative : Bool) (cs : List Char) : Option Int :=
  match cs with
  | '0' :: 'x' :: rest => parseIntCore negative 16 rest
  | '0' :: 'X' :: rest => parseIntCore negative 16 rest
  | _ => parseIntCore negative 10 cs

/-- The function `parseInt(string)` with no radix argument; `none` is `NaN`. The
result is exact (digit strings that denote more than 2^53 are rounded by the
language and are not meant), and `-0` is `0`. -/
def parseInt (s : String) : Option Int :=
  match s.toList.dropWhile isWhiteSpace with
  | '-' :: rest => parseIntUnsigned true rest
  | '+' :: rest => parseIntUnsigned false rest
  | cs => parseIntUnsigned false cs

/-- The object `request.query` as the listing services read it. -/
structure RawQuery where
  page_number : Option String
  page_size : Option String
  sort : Option String
  search : Option String
  deriving DecidableEq, Repr

/-- Line 8 of `getProducts`, `getSales` (sales-service.js line 8) and
`getUserSales` (line 183):
`query.page_number ? parseInt(query.page_number) : 1`. -/
def pageNumber (query : RawQuery) : Option Int :=
  match query.page_number with
  | none => some 1
  | some raw => if raw = "" then some 1 else parseInt raw

/-- Line 9 of `getProducts`, `getSales` (sales-service.js line 9) and
`getUserSales` (line 184):
`query.page_size ? parseInt(query.page_size) : 10`. -/
def pageSize (query : RawQuery) : Option Int :=
  match query.page_size with
  | none => some 10
  | some raw => if raw = "" then some 10 else parseInt raw

/-! ## How the store evaluates the conditions of a filter -/

/-- The characters of a string, letters in lower case. -/
def lowerChars (s : String) : List Char :=
  s.toList.map Char.toLower

/-- Whether `needle` occurs in `hay` as a block of consecutive characters. -/
def occursIn (needle : List Char) : List Char → Bool
  | [] => needle.isEmpty
  | c :: cs => needle.isPrefixOf (c :: cs) || occursIn needle cs

/-- Modelled from the spec: the regular-expression engine, which is not part of
the sources. A pattern built with the flag `i` from a source without special
characters matches the strings that contain the source, letter case ignored. -/
def regExpTest (source value : String) : Bool :=
  occursIn (lowerChars source) (lowerChars value)

/-- Modelled from the spec: how the store evaluates one condition on a field
holding a string (`none`: the document has no such field). A pattern is tested
against the value, a plain value must be equal to it; conditions on dates are
not evaluated here. -/
def conditionHolds (c : Condition) (field : Option String) : Bool :=
  match c, field with
  | .regExp source _, some v => regExpTest source v
  | .value x, some v => v == x
  | _, _ => false

/-- The string fields of a product. -/
def ProductDoc.field (p : ProductDoc) (key : String) : Option String :=
  if key = "name" then some p.name
  else if key = "description" then some p.description
  else if key = "category" then some p.category
  else none

/-- The string fields of a sale. -/
def SaleDoc.field (sale : SaleDoc) (key : String) : Option String :=
  if key = "user" then some sale.user
  else if key = "product" then some sale.product
  else if key = "address" then some sale.address
  else if key = "delivery_status" then some sale.delivery_status
  else none

/-- Modelled from the spec: a collection whose store matches a document when
every condition of the filter holds on the named field, and keeps insertion
order. -/
def fieldCollection {α : Type} (field : α → String → Option String) (docs : List α) :
    Collection α :=
  { docs := docs
    matchesFilter := fun f d => f.all (fun kv => conditionHolds kv.2 (field d kv.1))
    order := fun _ l => l
    order_perm := fun _ l => List.Perm.refl l }

end Listing

namespace UsersRepository

open Listing

/-- The filter built in `getUsers` (users-repository.js lines 16-28). -/
def searchDoc (rt : Runtime) (search : Option String) : Except Failure Filter :=
  match search with
  | none => .ok []
  | some s =>
    if s = "" then .ok []
    else
      match (splitPair s).2 with
      | none => .ok []
      | some searchValue =>
        if searchValue = "" then .ok []
        else if rt.regExpCompiles searchValue then
          .ok [((splitPair s).1, .regExp searchValue "i")]
        else .error (.syntaxError searchValue)

/-- The filter built in `getUsersTotal` (users-repository.js lines 41-51): the
pattern is built from `searchValue` whatever it is; `new RegExp(undefined, 'i')`
is the pattern with the empty source. -/
def totalSearchDoc (rt : Runtime) (search : Option String) : Except Failure Filter :=
  match search with
  | none => .ok []
  | some s =>
    if s = "" then .ok []
    else
      match (splitPair s).2 with
      | none => .ok [((splitPair s).1, .regExp "" "i")]
      | some searchValue =>
        if rt.regExpCompiles searchValue then
          .ok [((splitPair s).1, .regExp searchValue "i")]
        else .error (.syntaxError searchValue)

/-- The function `getUsers(query)` of users-repository.js. -/
def getUsers (rt : Runtime) (db : Database) (query : Query) :
    Except Failure (List UserDoc) :=
  match searchDoc rt query.search with
  | .error e => .error e
  | .ok search =>
    .ok (db.users.find search (sortDoc query.sort) query.page_size
      ((query.page_number - 1) * query.page_size))

/-- The function `getUsersTotal(query)` of users-repository.js. -/
def getUsersTotal (rt : Runtime) (db : Database) (search : Option String) :
    Except Failure Nat :=
  match totalSearchDoc rt search with
  | .error e => .error e
  | .ok filter => .ok (db.users.countDocuments filter)

end UsersRepository

namespace Listing

/-! ## Sample data -/

/-- A runtime in which the source `(` does not compile (`new RegExp('(', 'i')`
throws `SyntaxError: Unterminated group`) and every other source does. -/
def strictRuntime : Runtime :=
  { regExpCompiles := fun source => source != "("
    startOfDay := fun v => v
    endOfDay := fun v => v }

/-- A database with one user whose stored password hash is `hash`, one product,
and one sale of that product to that user. -/
def oneSaleDatabase (hash : String) : Database :=
  { users := plainCollection
      [{ id := "u1", name := "Ann", email := "ann@mail.com", password := hash }]
    products := plainCollection
      [{ id := "p1", name := "Pen", price := 3, description := "blue", category := "office"
         stock := 9 }]
    sales := plainCollection
      [{ id := "s1", date := 0, product := "p1", user := "u1", quantity := 1
         address := "Jl. Melati 1", delivery_status := "Placed" }] }

/-- A database with two sales, one of user `u1` and one of user `u2`, in a store
that evaluates filters field by field. -/
def twoBuyersDatabase : Database :=
  { users := plainCollection
      [{ id := "u1", name := "Ann", email := "ann@mail.com", password := "hash-A" },
       { id := "u2", name := "Bob", email := "bob@mail.com", password := "hash-B" }]
    products := plainCollection []
    sales := fieldCollection SaleDoc.field
      [{ id := "s1", date := 0, product := "p1", user := "u1", quantity := 1
         address := "Jl. Melati 1", delivery_status := "Placed" },
       { id := "s2", date := 0, product := "p1", user := "u2", quantity := 2
         address := "Jl. Mawar 2", delivery_status := "Placed" }] }

/-- The string fields of a user. -/
def UserDoc.field (u : UserDoc) (key : String) : Option String :=
  if key = "name" then some u.name
  else if key = "email" then some u.email
  else if key = "password" then some u.password
  else none

/-- A database with two users, in a store that evaluates filters field by
field. -/
def twoUsersDatabase : Database :=
  { users := fieldCollection UserDoc.field
      [{ id := "u1", name := "Ann", email := "ann@mail.com", password := "hash-A" },
       { id := "u2", name := "Bob", email := "bob@mail.com", password := "hash-B" }]
    products := plainCollection []
    sales := plainCollection [] }

/-- A product whose name is `ABC123`. -/
def abcProduct : ProductDoc :=
  { id := "p7", name := "ABC123", price := 100, description := "", category := "misc"
    stock := 1 }

end Listing

namespace Listing

/-! ## Writes to the store -/

/-- Modelled from the spec: `Model.updateOne(filter, update)` changes the first
document that the filter selects and no other. -/
def updateFirst {α : Type} (selected : α → Bool) (change : α → α) : List α → List α
  | [] => []
  | a :: rest => if selected a then change a :: rest else a :: updateFirst selected change rest

/-- What the store does with the writes of one request, and the values it
supplies: the id given to a created sale, the value of `new Date()`, whether
`Sale.create` returns (it rejects otherwise) and whether `Product.updateOne`
does. A write that does not return changes nothing. -/
structure StoreWrites where
  saleId : String
  now : Int
  createSucceeds : Bool
  updateSucceeds : Bool
  deriving DecidableEq, Repr

end Listing

namespace ProductsRepository

open Listing

/-- The function `getProduct(id)` of products-repository.js: `Product.findById(id)`. -/
def getProduct (db : Database) (id : String) : Option ProductDoc :=
  db.products.docs.find? (fun p => p.id == id)

/-- The function `updateStock(id, stock)` of products-repository.js:
`Product.updateOne({ _id: id }, { $set: { stock } })`. -/
def updateStock (db : Database) (id : String) (stock : Int) : Database :=
  { db with
    products :=
      { db.products with
        docs := updateFirst (fun p => p.id == id) (fun p => { p with stock := stock })
          db.products.docs } }

end ProductsRepository

namespace ProductsService

open Listing

/-- The function `getProduct(id)` of products-service.js (lines 65-84): the
projection of the product found, or `null`. -/
def getProduct (db : Database) (id : String) : Option ProductView :=
  match ProductsRepository.getProduct db id with
  | none => none
  | some product => some (view product)

/-- The function `updateStock(productId, stock)` of products-service.js (lines
170-192): the database afterwards, and `true` or `null` (here `false`). -/
def updateStock (updateSucceeds : Bool) (db : Database) (productId : String) (stock : Int) :
    Database × Bool :=
  match ProductsRepository.getProduct db productId with
  | none => (db, false)
  | some _ =>
    if updateSucceeds then (ProductsRepository.updateStock db productId stock, true)
    else (db, false)

end ProductsService

namespace UsersRepository

open Listing

/-- The function `getUser(id)` of users-repository.js: `User.findById(id)`. -/
def getUser (db : Database) (id : String) : Option UserDoc :=
  db.users.docs.find? (fun u => u.id == id)

end UsersRepository

namespace UsersService

open Listing

/-- Modelled from the spec: users-service.js is not part of the sources;
`getUser(id)` is taken to return the user that `getUser` of users-repository.js
finds, or `null`. Only whether it is `null` matters to `createSale`. -/
def getUser (db : Database) (id : String) : Option UserDoc :=
  UsersRepository.getUser db id

end UsersService

namespace SalesRepository

open Listing

/-- The function `createSale(product, user, quantity, address)` of
sales-repository.js: `Sale.create` of a sale dated now with the status `Placed`. -/
def createSale (db : Database) (saleId : String) (now : Int) (product user : String)
    (quantity : Int) (address : String) : Database :=
  { db with
    sales :=
      { db.sales with
        docs := db.sales.docs ++
          [{ id := saleId, date := now, product := product, user := user
             quantity := quantity, address := address, delivery_status := "Placed" }] } }

end SalesRepository

namespace SalesService

open Listing

/-- The function `createSale(product, user, quantity, address)` of
sales-service.js (lines 94-102): the database afterwards, and `true` or `null`
(here `false`). -/
def createSale (w : StoreWrites) (db : Database) (product user : String) (quantity : Int)
    (address : String) : Database × Bool :=
  if w.createSucceeds then
    (SalesRepository.createSale db w.saleId w.now product user quantity address, true)
  else (db, false)

end SalesService

namespace SalesController

open Listing

/-- The body `{ product, user, quantity, address }` of a request to create a
sale. -/
structure CreateSaleRequest where
  product : String
  user : String
  quantity : Int
  address : String
  deriving DecidableEq, Repr

/-- How `createSale` ends: the 200 answer, or one of the five errors passed to
`next`; `notEnoughStock` carries the stock quoted in the message. -/
inductive CreateSaleResponse where
  | ok (product user : String) (quantity : Int) (address : String)
  | unknownProduct
  | unknownUser
  | notEnoughStock (remaining : Int)
  | failedToCreateSale
  | failedToUpdateStock
  deriving DecidableEq, Repr

/-- The handler `createSale(request, response, next)` of sales-controller.js
(lines 50-102): the database afterwards and the answer. -/
def createSale (w : StoreWrites) (db : Database) (request : CreateSaleRequest) :
    Database × CreateSaleResponse :=
  match ProductsService.getProduct db request.product with
  | none => (db, .unknownProduct)
  | some product_data =>
    match UsersService.getUser db request.user with
    | none => (db, .unknownUser)
    | some _ =>
      if product_data.stock < request.quantity then
        (db, .notEnoughStock product_data.stock)
      else if (SalesService.createSale w db request.product request.user request.quantity
          request.address).2 = false then
        ((SalesService.createSale w db request.product request.user request.quantity
          request.address).1, .failedToCreateSale)
      else if (ProductsService.updateStock w.updateSucceeds
          (SalesService.createSale w db request.product request.user request.quantity
            request.address).1
          product_data.id (product_data.stock - request.quantity)).2 = false then
        ((ProductsService.updateStock w.updateSucceeds
          (SalesService.createSale w db request.product request.user request.quantity
            request.address).1
          product_data.id (product_data.stock - request.quantity)).1, .failedToUpdateStock)
      else
        ((ProductsService.updateStock w.updateSucceeds
          (SalesService.createSale w db request.product request.user request.quantity
            request.address).1
          product_data.id (product_data.stock - request.quantity)).1,
          .ok request.product request.user request.quantity request.address)

/-- The database after the requests of `trace`, handled one after the other. -/
def runSales (db : Database) (trace : List (StoreWrites × CreateSaleRequest)) : Database :=
  trace.foldl (fun d step => (createSale step.1 d step.2).1) db

end SalesController

/-! # Properties -/

namespace Authentication

/-! ## Login throttle -/

theorem not_proto_of_not_inherited (key : String) (h : inherited key = false) :
    key ≠ "__proto__" := by
  intro hk
  rw [hk] at h
  revert h
  decide

theorem read_own {α : Type} (obj : String → Option α) (key : String) (v : α)
    (h : obj key = some v) : read obj key = .own v := by
  simp [read, h]

theorem read_absent {α : Type} (obj : String → Option α) (key : String)
    (h : obj key = none) (hi : inherited key = false) : read obj key = .undefined := by
  simp [read, h, hi]

theorem geNumber_eq_true_iff (s : Attempts) (email : String) :
    geNumber (read s.failedLoginAttempts email) maxLoginAttempt = true ↔
      ∃ c, s.failedLoginAttempts email = some (.number c) ∧ 5 ≤ c := by
  unfold read geNumber maxLoginAttempt
  cases hc : s.failedLoginAttempts email with
  | none => cases inherited email <;> simp
  | some v => cases v <;> simp

theorem stamp_within_iff (s : Attempts) (email : String) (now : Int) :
    (truthy (read s.lastLoginAttempt email) &&
        elapsedBelow now (read s.lastLoginAttempt email) (minutesToReset * 60 * 1000)) = true ↔
      ∃ t, s.lastLoginAttempt email = some t ∧ t ≠ 0 ∧ now - t < 1800000 := by
  unfold read truthy elapsedBelow minutesToReset
  cases ht : s.lastLoginAttempt email with
  | none => cases inherited email <;> simp
  | some t => simp

theorem lockoutCheck_eq_none_iff (s : Attempts) (email : String) (now : Int) :
    lockoutCheck s email now = none ↔
      (∃ c, s.failedLoginAttempts email = some (.number c) ∧ 5 ≤ c) ∧
      (∃ t, s.lastLoginAttempt email = some t ∧ t ≠ 0 ∧ now - t < 1800000) := by
  rw [← geNumber_eq_true_iff, ← stamp_within_iff s email now]
  unfold lockoutCheck
  by_cases h1 : geNumber (read s.failedLoginAttempts email) maxLoginAttempt = true
  · by_cases h2 : (truthy (read s.lastLoginAttempt email) &&
        elapsedBelow now (read s.lastLoginAttempt email) (minutesToReset * 60 * 1000)) = true
    · simp [h1, h2]
    · simp [h1, h2]
  · simp [h1]

theorem login_response_lockout_iff (check : String → String → CredentialCheck)
    (now later : Int) (s : Attempts) (request : LoginRequest) :
    (login check now later s request).response = .tooManyFailedLoginAttempts ↔
      lockoutCheck s request.email now = none := by
  unfold login
  cases lockoutCheck s request.email now with
  | none => simp
  | some s₁ => cases check request.email request.password <;> simp

theorem lockoutCheck_of_not_ge (s : Attempts) (email : String) (now : Int)
    (h : ∀ c, s.failedLoginAttempts email = some (.number c) → c < 5) :
    lockoutCheck s email now = some s := by
  have hge : ¬ geNumber (read s.failedLoginAttempts email) maxLoginAttempt = true := by
    rw [geNumber_eq_true_iff]
    rintro ⟨c, hc, h5⟩
    have := h c hc
    omega
  simp [lockoutCheck, hge]

theorem lockoutCheck_of_elapsed (s : Attempts) (email : String) (now : Int) (c : Nat) (t : Int)
    (hc : s.failedLoginAttempts email = some (.number c)) (h5 : 5 ≤ c)
    (ht : s.lastLoginAttempt email = some t) (hw : 1800000 ≤ now - t) :
    ∃ s₁, lockoutCheck s email now = some s₁ ∧
      s₁.failedLoginAttempts = deleteKey s.failedLoginAttempts email ∧
      s₁.lastLoginAttempt = s.lastLoginAttempt := by
  have hge : geNumber (read s.failedLoginAttempts email) maxLoginAttempt = true :=
    (geNumber_eq_true_iff s email).mpr ⟨c, hc, h5⟩
  have hst : ¬ (truthy (read s.lastLoginAttempt email) &&
      elapsedBelow now (read s.lastLoginAttempt email) (minutesToReset * 60 * 1000)) = true := by
    rw [stamp_within_iff]
    rintro ⟨t₂, ht₂, -, hlt⟩
    rw [ht] at ht₂
    cases ht₂
    omega
  unfold lockoutCheck
  simp only [hge, hst, if_true, if_false]
  exact ⟨_, rfl, rfl, rfl⟩

theorem login_denied_of_open (check : String → String → CredentialCheck) (now later : Int)
    (s s₁ : Attempts) (email password : String)
    (hgate : lockoutCheck s email now = some s₁) (hd : check email password = .denied) :
    login check now later s ⟨email, password⟩ =
      { state := recordFailure s₁ email later, response := .invalidCredentials
        credentialCalls := [(email, password)] } := by
  simp [login, hgate, hd]

theorem recordFailure_count (s : Attempts) (email : String) (later : Int)
    (hi : inherited email = false) :
    (recordFailure s email later).failedLoginAttempts email
      = some (orZeroPlusOne (read s.failedLoginAttempts email)) ∧
    (recordFailure s email later).lastLoginAttempt email = some later := by
  have hp := not_proto_of_not_inherited email hi
  simp [recordFailure, assign, hp]


theorem lockoutCheck_some (s s₁ : Attempts) (email : String) (now : Int)
    (h : lockoutCheck s email now = some s₁) :
    s₁.lastLoginAttempt = s.lastLoginAttempt ∧
    (∀ c, s₁.failedLoginAttempts email = some (.number c) → c < 5) ∧
    (∀ k v, s₁.failedLoginAttempts k = some v → s.failedLoginAttempts k = some v) ∧
    (s₁ = s ∨ s₁.failedLoginAttempts email = none) := by
  unfold lockoutCheck at h
  by_cases hge : geNumber (read s.failedLoginAttempts email) maxLoginAttempt = true
  · simp only [hge, if_true] at h
    split at h
    · cases h
    · cases h
      refine ⟨rfl, by simp [deleteKey], ?_, Or.inr (by simp [deleteKey])⟩
      intro k v hk
      by_cases hke : k = email
      · simp [deleteKey, hke] at hk
      · simpa [deleteKey, hke] using hk
  · simp only [hge] at h
    cases h
    refine ⟨rfl, ?_, fun _ _ hk => hk, Or.inl rfl⟩
    intro c hc
    by_contra hlt
    exact hge ((geNumber_eq_true_iff s email).mpr ⟨c, hc, by omega⟩)

theorem step_stamps_nonzero (s : Attempts) (a : Attempt) (ha : a.later ≠ 0)
    (h : ∀ k t, s.lastLoginAttempt k = some t → t ≠ 0) :
    ∀ k t, (step s a).lastLoginAttempt k = some t → t ≠ 0 := by
  intro k t hstep
  unfold step login at hstep
  cases hg : lockoutCheck s a.request.email a.now with
  | none =>
    rw [hg] at hstep
    exact h k t hstep
  | some s₁ =>
    rw [hg] at hstep
    obtain ⟨hlast, -, -, -⟩ := lockoutCheck_some s s₁ a.request.email a.now hg
    cases ho : a.outcome with
    | threw =>
      simp only [ho, hlast] at hstep
      exact h k t hstep
    | granted =>
      simp only [ho, recordSuccess, deleteKey, hlast] at hstep
      split at hstep
      · cases hstep
      · exact h k t hstep
    | denied =>
      simp only [ho, recordFailure, assign, hlast] at hstep
      split at hstep
      · exact h k t hstep
      · split at hstep
        · cases hstep
          exact ha
        · exact h k t hstep

theorem foldl_step_stamps_nonzero (trace : List Attempt) (s : Attempts)
    (hclock : ∀ a ∈ trace, a.later ≠ 0)
    (h : ∀ k t, s.lastLoginAttempt k = some t → t ≠ 0) :
    ∀ k t, (trace.foldl step s).lastLoginAttempt k = some t → t ≠ 0 := by
  induction trace generalizing s with
  | nil => exact h
  | cons a rest ih =>
    exact ih (step s a) (fun b hb => hclock b (List.mem_cons_of_mem a hb))
      (step_stamps_nonzero s a (hclock a (List.mem_cons_self a rest)) h)

theorem run_stamps_nonzero (trace : List Attempt) (hclock : ∀ a ∈ trace, a.later ≠ 0) :
    ∀ k t, (run trace).lastLoginAttempt k = some t → t ≠ 0 :=
  foldl_step_stamps_nonzero trace Attempts.empty hclock (fun _ _ h => by cases h)

theorem lockout_iff_of_stamps (check : String → String → CredentialCheck) (now later : Int)
    (s : Attempts) (request : LoginRequest)
    (hz : ∀ k t, s.lastLoginAttempt k = some t → t ≠ 0) :
    (login check now later s request).response = .tooManyFailedLoginAttempts ↔
      (∃ c, s.failedLoginAttempts request.email = some (.number c) ∧ 5 ≤ c) ∧
      (∃ t, s.lastLoginAttempt request.email = some t ∧ now - t < 1800000) := by
  rw [login_response_lockout_iff, lockoutCheck_eq_none_iff]
  constructor
  · rintro ⟨hc, t, ht, -, hlt⟩
    exact ⟨hc, t, ht, hlt⟩
  · rintro ⟨hc, t, ht, hlt⟩
    exact ⟨hc, t, ht, hz request.email t ht, hlt⟩

theorem open_of_small_count (check : String → String → CredentialCheck) (now later : Int)
    (s : Attempts) (request : LoginRequest)
    (h : ∀ c, s.failedLoginAttempts request.email = some (.number c) → c < 5) :
    (login check now later s request).response ≠ .tooManyFailedLoginAttempts ∧
    (login check now later s request).credentialCalls
      = [(request.email, request.password)] := by
  have hg := lockoutCheck_of_not_ge s request.email now h
  unfold login
  rw [hg]
  cases check request.email request.password <;> simp

/-- C1: in every state that `login` has stored, the clock never having read 0 when
a failure was stamped, and at every time `now`, an attempt is answered with
TOO_MANY_FAILED_LOGIN_ATTEMPTS exactly when the stored failure count of the email
is at least 5 and `now` minus its last-failure timestamp is below 1,800,000 ms;
an email with no stored count or with a count below 5 always reaches the
credential check. -/
theorem login_lockout_iff (trace : List Attempt) (hclock : ∀ a ∈ trace, a.later ≠ 0)
    (check : String → String → CredentialCheck) (now later : Int) (request : LoginRequest) :
    ((login check now later (run trace) request).response = .tooManyFailedLoginAttempts ↔
      (∃ c, (run trace).failedLoginAttempts request.email = some (.number c) ∧ 5 ≤ c) ∧
      (∃ t, (run trace).lastLoginAttempt request.email = some t ∧ now - t < 1800000)) ∧
    ((∀ c, (run trace).failedLoginAttempts request.email = some (.number c) → c < 5) →
      (login check now later (run trace) request).response ≠ .tooManyFailedLoginAttempts ∧
      (login check now later (run trace) request).credentialCalls =
        [(request.email, request.password)]) :=
  ⟨lockout_iff_of_stamps check now later (run trace) request (run_stamps_nonzero trace hclock),
    open_of_small_count check now later (run trace) request⟩

/-- C1 (witness): after five failures stamped at 1 s, an attempt at 2 s with the
right password is rejected, and after four it is not. -/
theorem login_lockout_iff_witness :
    (login (fun _ _ => .granted) 2000 2000
      (run (List.replicate 5 ⟨⟨"x@mail.com", "wrong"⟩, .denied, 1000, 1000⟩))
      ⟨"x@mail.com", "right"⟩).response = .tooManyFailedLoginAttempts ∧
    (login (fun _ _ => .granted) 2000 2000
      (run (List.replicate 4 ⟨⟨"x@mail.com", "wrong"⟩, .denied, 1000, 1000⟩))
      ⟨"x@mail.com", "right"⟩).response ≠ .tooManyFailedLoginAttempts :=
  ⟨(login_lockout_iff (List.replicate 5 ⟨⟨"x@mail.com", "wrong"⟩, .denied, 1000, 1000⟩)
      (by decide) (fun _ _ => .granted) 2000 2000 ⟨"x@mail.com", "right"⟩).1.mpr
      ⟨⟨5, by decide, by decide⟩, ⟨1000, by decide, by decide⟩⟩,
    ((login_lockout_iff (List.replicate 4 ⟨⟨"x@mail.com", "wrong"⟩, .denied, 1000, 1000⟩)
      (by decide) (fun _ _ => .granted) 2000 2000 ⟨"x@mail.com", "right"⟩).2
      (by
        intro c hc
        have h4 : (run (List.replicate 4 ⟨⟨"x@mail.com", "wrong"⟩, .denied, 1000,
            1000⟩)).failedLoginAttempts "x@mail.com" = some (.number 4) := by decide
        rw [h4] at hc
        cases hc
        decide)).1⟩


theorem failedLogins_count (s : Attempts) (email : String) (passwords : Nat → String)
    (times : Nat → Int × Int) (hi : inherited email = false)
    (h0 : s.failedLoginAttempts email = none) (n : Nat) (hn : n < 5) :
    (failedLogins s email passwords times (n + 1)).failedLoginAttempts email
      = some (.number (n + 1)) ∧
    (failedLogins s email passwords times (n + 1)).lastLoginAttempt email
      = some (times n).2 := by
  induction n with
  | zero =>
    have hg : lockoutCheck s email (times 0).1 = some s :=
      lockoutCheck_of_not_ge s email _ (by simp [h0])
    rw [failedLogins, failedLogins,
      login_denied_of_open (fun _ _ => .denied) _ _ s s email _ hg rfl]
    have hr := recordFailure_count s email (times 0).2 hi
    rw [read_absent _ _ h0 hi] at hr
    exact hr
  | succ n ih =>
    have ihn := ih (by omega)
    have hg : lockoutCheck (failedLogins s email passwords times (n + 1)) email
        (times (n + 1)).1 = some (failedLogins s email passwords times (n + 1)) :=
      lockoutCheck_of_not_ge _ email _ (by
        intro c hc
        rw [ihn.1] at hc
        cases hc
        omega)
    rw [failedLogins, login_denied_of_open (fun _ _ => .denied) _ _ _ _ email _ hg rfl]
    have hr := recordFailure_count (failedLogins s email passwords times (n + 1)) email
      (times (n + 1)).2 hi
    rw [read_own _ _ _ ihn.1] at hr
    exact hr

theorem login_denied_after_reset (check : String → String → CredentialCheck)
    (now later : Int) (s : Attempts) (email password : String) (c : Nat) (t : Int)
    (hc : s.failedLoginAttempts email = some (.number c)) (h5 : 5 ≤ c)
    (ht : s.lastLoginAttempt email = some t) (hw : 1800000 ≤ now - t)
    (hd : check email password = .denied) :
    (login check now later s ⟨email, password⟩).state.failedLoginAttempts email
      = some (.number 1) ∧
    (login check now later s ⟨email, password⟩).state.lastLoginAttempt email = some later := by
  have hi : inherited email = false := s.number_own email c hc
  obtain ⟨s₁, hg, hf, -⟩ := lockoutCheck_of_elapsed s email now c t hc h5 ht hw
  rw [login_denied_of_open check now later _ _ email password hg hd]
  have hnone : s₁.failedLoginAttempts email = none := by simp [hf, deleteKey]
  have hr := recordFailure_count s₁ email later hi
  rw [read_absent _ _ hnone hi] at hr
  exact hr

/-- Five consecutive failed logins of an email that is not an inherited key,
starting with no stored count, store the counts 1 to 5 with the time of each
failure; the next attempt made less than 1,800,000 ms after a fifth failure
stamped with a non-zero clock value is answered with the lockout error, without
a credential check. -/
theorem five_failures_then_locked (s : Attempts) (email : String) (passwords : Nat → String)
    (times : Nat → Int × Int) (check : String → String → CredentialCheck) (now later : Int)
    (password : String) (hi : inherited email = false)
    (h0 : s.failedLoginAttempts email = none) (hz : (times 4).2 ≠ 0)
    (hw : now - (times 4).2 < 1800000) :
    (∀ n, n < 5 →
      (failedLogins s email passwords times (n + 1)).failedLoginAttempts email
        = some (.number (n + 1)) ∧
      (failedLogins s email passwords times (n + 1)).lastLoginAttempt email
        = some (times n).2) ∧
    (login check now later (failedLogins s email passwords times 5) ⟨email, password⟩).response
      = .tooManyFailedLoginAttempts ∧
    (login check now later (failedLogins s email passwords times 5)
      ⟨email, password⟩).credentialCalls = [] := by
  have hcount := failedLogins_count s email passwords times hi h0
  have h5 := hcount 4 (by omega)
  have hnone : lockoutCheck (failedLogins s email passwords times 5) email now = none := by
    rw [lockoutCheck_eq_none_iff]
    exact ⟨⟨5, h5.1, le_refl 5⟩, ⟨(times 4).2, h5.2, hz, hw⟩⟩
  refine ⟨hcount, ?_, ?_⟩ <;> simp [login, hnone]

/-- C2 (the code at the failing input): five failed logins of the email
`constructor`, one second apart, store a string with five appended `1`, not the
count 5, and the attempt made one second after the fifth failure is not
rejected: the credentials are checked, and with the right password the login
succeeds. The same five failures of `x@mail.com` store the count 5 and the next
attempt is rejected. -/
theorem five_failures_of_inherited_key_not_locked :
    (failedLogins Attempts.empty "constructor" (fun _ => "wrong")
      (fun i => (1000 * (i + 1), 1000 * (i + 1))) 5).failedLoginAttempts "constructor"
      = some (.text 5) ∧
    (failedLogins Attempts.empty "constructor" (fun _ => "wrong")
      (fun i => (1000 * (i + 1), 1000 * (i + 1))) 5).lastLoginAttempt "constructor"
      = some 5000 ∧
    (login (fun _ _ => .granted) 6000 6000
      (failedLogins Attempts.empty "constructor" (fun _ => "wrong")
        (fun i => (1000 * (i + 1), 1000 * (i + 1))) 5) ⟨"constructor", "right"⟩).response
      = .ok ∧
    (login (fun _ _ => .denied) 6000 6000
      (failedLogins Attempts.empty "constructor" (fun _ => "wrong")
        (fun i => (1000 * (i + 1), 1000 * (i + 1))) 5)
      ⟨"constructor", "wrong"⟩).credentialCalls = [("constructor", "wrong")] ∧
    (failedLogins Attempts.empty "x@mail.com" (fun _ => "wrong")
      (fun i => (1000 * (i + 1), 1000 * (i + 1))) 5).failedLoginAttempts "x@mail.com"
      = some (.number 5) ∧
    (login (fun _ _ => .granted) 6000 6000
      (failedLogins Attempts.empty "x@mail.com" (fun _ => "wrong")
        (fun i => (1000 * (i + 1), 1000 * (i + 1))) 5) ⟨"x@mail.com", "right"⟩).response
      = .tooManyFailedLoginAttempts := by
  refine ⟨by decide, by decide, by decide, by decide, by decide, by decide⟩

/-- When `email` is not locked out and the credential check succeeds, `login`
answers 200 and deletes both entries of `email`; from the resulting state every
further attempt for `email` reaches the credential check, and if `email` is not
an inherited key a failed attempt then stores the count 1. -/
theorem successful_login_clears_record (check : String → String → CredentialCheck)
    (now later : Int) (s : Attempts) (request : LoginRequest)
    (hopen : (lockoutCheck s request.email now).isSome = true)
    (hok : check request.email request.password = .granted) :
    (login check now later s request).response = .ok ∧
    (login check now later s request).state.failedLoginAttempts request.email = none ∧
    (login check now later s request).state.lastLoginAttempt request.email = none ∧
    (∀ (check₂ : String → String → CredentialCheck) (now₂ later₂ : Int) (password₂ : String),
      (login check₂ now₂ later₂ (login check now later s request).state
        ⟨request.email, password₂⟩).response ≠ .tooManyFailedLoginAttempts ∧
      (login check₂ now₂ later₂ (login check now later s request).state
        ⟨request.email, password₂⟩).credentialCalls = [(request.email, password₂)] ∧
      (inherited request.email = false → check₂ request.email password₂ = .denied →
        (login check₂ now₂ later₂ (login check now later s request).state
          ⟨request.email, password₂⟩).state.failedLoginAttempts request.email
            = some (.number 1) ∧
        (login check₂ now₂ later₂ (login check now later s request).state
          ⟨request.email, password₂⟩).state.lastLoginAttempt request.email = some later₂)) := by
  obtain ⟨s₁, hs₁⟩ := Option.isSome_iff_exists.mp hopen
  have hlogin : login check now later s request =
      { state := recordSuccess s₁ request.email, response := .ok
        credentialCalls := [(request.email, request.password)] } := by
    simp [login, hs₁, hok]
  rw [hlogin]
  have hclear : (recordSuccess s₁ request.email).failedLoginAttempts request.email = none := by
    simp [recordSuccess, deleteKey]
  refine ⟨rfl, hclear, by simp [recordSuccess, deleteKey], ?_⟩
  intro check₂ now₂ later₂ password₂
  have hg := lockoutCheck_of_not_ge (recordSuccess s₁ request.email) request.email now₂
    (by simp [hclear])
  refine ⟨?_, ?_, ?_⟩
  · rw [Ne, login_response_lockout_iff, hg]; simp
  · simp only [login, hg]
    cases check₂ request.email password₂ <;> rfl
  · intro hi hd
    rw [login_denied_of_open check₂ now₂ later₂ _ _ request.email password₂ hg hd]
    have hr := recordFailure_count (recordSuccess s₁ request.email) request.email later₂ hi
    rw [read_absent _ _ hclear hi] at hr
    exact hr

/-- C3 (the code at the failing input): for the email `constructor`, after three
failed logins and then a successful one nothing is stored for the email and the
next attempt reaches the credential check, but a failed attempt then stores a
string (the inherited value followed by `1`), not the count 1. For `x@mail.com`
the same requests store the count 1. -/
theorem failure_after_success_of_inherited_key :
    (login (fun _ _ => .granted) 4000 4000
      (failedLogins Attempts.empty "constructor" (fun _ => "wrong") (fun _ => (1000, 1000)) 3)
      ⟨"constructor", "right"⟩).state.failedLoginAttempts "constructor" = none ∧
    (login (fun _ _ => .granted) 4000 4000
      (failedLogins Attempts.empty "constructor" (fun _ => "wrong") (fun _ => (1000, 1000)) 3)
      ⟨"constructor", "right"⟩).state.lastLoginAttempt "constructor" = none ∧
    (login (fun _ _ => .denied) 5000 5000
      (login (fun _ _ => .granted) 4000 4000
        (failedLogins Attempts.empty "constructor" (fun _ => "wrong")
          (fun _ => (1000, 1000)) 3)
        ⟨"constructor", "right"⟩).state
      ⟨"constructor", "wrong"⟩).state.failedLoginAttempts "constructor" = some (.text 1) ∧
    (login (fun _ _ => .denied) 5000 5000
      (login (fun _ _ => .granted) 4000 4000
        (failedLogins Attempts.empty "x@mail.com" (fun _ => "wrong")
          (fun _ => (1000, 1000)) 3)
        ⟨"x@mail.com", "right"⟩).state
      ⟨"x@mail.com", "wrong"⟩).state.failedLoginAttempts "x@mail.com" = some (.number 1) := by
  refine ⟨by decide, by decide, by decide, by decide⟩

/-- C4 (as amended): when the stored count of `email` is at least 5 and its last
failure lies 1,800,000 ms or more in the past, the attempt is not answered with
the lockout error; before the credentials are checked the failure count of
`email` is deleted while its last-failure timestamp stays stored, and a failed
attempt then leaves the count 1 and the timestamp of this very failure, so
nothing of the earlier failures remains. -/
theorem elapsed_lockout_resets_count (s : Attempts) (email : String) (c : Nat) (t now : Int)
    (hc : s.failedLoginAttempts email = some (.number c)) (h5 : 5 ≤ c)
    (ht : s.lastLoginAttempt email = some t) (hw : 1800000 ≤ now - t) :
    (∃ s₁, lockoutCheck s email now = some s₁ ∧ s₁.failedLoginAttempts email = none ∧
      s₁.lastLoginAttempt email = some t) ∧
    (∀ (check : String → String → CredentialCheck) (later : Int) (password : String),
      (login check now later s ⟨email, password⟩).response ≠ .tooManyFailedLoginAttempts ∧
      (login check now later s ⟨email, password⟩).credentialCalls = [(email, password)] ∧
      (check email password = .denied →
        (login check now later s ⟨email, password⟩).state.failedLoginAttempts email
          = some (.number 1) ∧
        (login check now later s ⟨email, password⟩).state.lastLoginAttempt email
          = some later)) := by
  obtain ⟨s₁, hg, hf, hl⟩ := lockoutCheck_of_elapsed s email now c t hc h5 ht hw
  refine ⟨⟨s₁, hg, by simp [hf, deleteKey], by rw [hl]; exact ht⟩, ?_⟩
  intro check later password
  refine ⟨?_, ?_, ?_⟩
  · rw [Ne, login_response_lockout_iff, hg]; simp
  · simp only [login, hg]
    cases check email password <;> rfl
  · exact login_denied_after_reset check now later s email password c t hc h5 ht hw

/-- C4 (witness): five failures, the last at 1 s; an attempt 31 minutes later. -/
theorem elapsed_lockout_resets_count_witness :
    (login (fun _ _ => .denied) 1861000 1861001 (stamped 5)
      ⟨"x@mail.com", "wrong"⟩).state.failedLoginAttempts "x@mail.com" = some (.number 1) ∧
    (login (fun _ _ => .denied) 1861000 1861001 (stamped 5)
      ⟨"x@mail.com", "wrong"⟩).state.lastLoginAttempt "x@mail.com" = some 1861001 :=
  ((elapsed_lockout_resets_count (stamped 5) "x@mail.com" 5 1000 1861000 rfl (by decide) rfl
    (by decide)).2 (fun _ _ => .denied) 1861001 "wrong").2.2 rfl

/-- C4 (counterexample): with five failures, the last at 1 s, and an attempt 31
minutes later, the state with which the credentials are checked still stores the
last-failure timestamp of the email, and it is still stored after the attempt
when the credential check throws: the record is not deleted as a whole. -/
theorem elapsed_lockout_keeps_timestamp :
    (stamped 5).failedLoginAttempts "x@mail.com" = some (.number 5) ∧
    (1800000 : Int) ≤ 1861000 - 1000 ∧
    (lockoutCheck (stamped 5) "x@mail.com" 1861000).map
      (fun s₁ => (s₁.failedLoginAttempts "x@mail.com", s₁.lastLoginAttempt "x@mail.com"))
      = some (none, some 1000) ∧
    (login (fun _ _ => .threw) 1861000 1861000 (stamped 5)
      ⟨"x@mail.com", "any"⟩).state.lastLoginAttempt "x@mail.com" = some 1000 := by
  refine ⟨by decide, by decide, by decide, by decide⟩

/-- C5: an attempt answered with the lockout error makes no call to
`checkLoginCredentials` and leaves both dictionaries as they were, for every
email; the result does not depend on the credential service or on later clock
reads. -/
theorem lockout_leaves_state_unchanged (check : String → String → CredentialCheck)
    (now later : Int) (s : Attempts) (request : LoginRequest)
    (h : (login check now later s request).response = .tooManyFailedLoginAttempts) :
    (login check now later s request).credentialCalls = [] ∧
    (login check now later s request).state = s ∧
    (∀ (check₂ : String → String → CredentialCheck) (later₂ : Int),
      login check₂ now later₂ s request = login check now later s request) := by
  rw [login_response_lockout_iff] at h
  refine ⟨by simp [login, h], by simp [login, h], fun check₂ later₂ => by simp [login, h]⟩

/-- C5 (witness): five failures, the last at 1 s; an attempt at 2 s is rejected and
the stored count and timestamp are the same as before. -/
theorem lockout_leaves_state_unchanged_witness :
    (login (fun _ _ => .granted) 2000 2000 (stamped 5) ⟨"x@mail.com", "right"⟩).response
      = .tooManyFailedLoginAttempts ∧
    (login (fun _ _ => .granted) 2000 2000 (stamped 5) ⟨"x@mail.com", "right"⟩).credentialCalls
      = [] ∧
    (login (fun _ _ => .granted) 2000 2000 (stamped 5) ⟨"x@mail.com", "right"⟩).state
      = stamped 5 :=
  ⟨by decide,
    (lockout_leaves_state_unchanged (fun _ _ => .granted) 2000 2000 (stamped 5)
      ⟨"x@mail.com", "right"⟩ (by decide)).1,
    (lockout_leaves_state_unchanged (fun _ _ => .granted) 2000 2000 (stamped 5)
      ⟨"x@mail.com", "right"⟩ (by decide)).2.1⟩

/-- C6 (as amended): for an email whose last failure lies 1,800,000 ms or more in
the past, a failed attempt leaves the count 1 when the stored count was at least
5 (the count is reset first), and leaves the stored count plus one when it was
below 5 (elapsed time does not reset a count below 5). -/
theorem elapsed_window_failure_count (check : String → String → CredentialCheck)
    (now later : Int) (s : Attempts) (email password : String) (c : Nat) (t : Int)
    (hc : s.failedLoginAttempts email = some (.number c))
    (ht : s.lastLoginAttempt email = some t)
    (hw : 1800000 ≤ now - t) (hd : check email password = .denied) :
    (5 ≤ c →
      (login check now later s ⟨email, password⟩).state.failedLoginAttempts email
        = some (.number 1)) ∧
    (c < 5 →
      (login check now later s ⟨email, password⟩).state.failedLoginAttempts email
        = some (.number (c + 1))) := by
  constructor
  · intro h5
    exact (login_denied_after_reset check now later s email password c t hc h5 ht hw hd).1
  · intro h5
    have hi : inherited email = false := s.number_own email c hc
    have hg := lockoutCheck_of_not_ge s email now (by
      intro c₂ hc₂
      rw [hc] at hc₂
      cases hc₂
      exact h5)
    rw [login_denied_of_open check now later _ _ email password hg hd]
    have hr := recordFailure_count s email later hi
    rw [read_own _ _ _ hc] at hr
    exact hr.1

/-- C6 (witness): a count of 5 is reset by the elapsed window, so a failure 31
minutes after the last one leaves the count 1. -/
theorem elapsed_window_failure_count_witness :
    (login (fun _ _ => .denied) 1861000 1861000 (stamped 5)
      ⟨"x@mail.com", "wrong"⟩).state.failedLoginAttempts "x@mail.com" = some (.number 1) :=
  (elapsed_window_failure_count (fun _ _ => .denied) 1861000 1861000 (stamped 5)
    "x@mail.com" "wrong" 5 1000 rfl rfl (by decide) rfl).1 (by decide)

/-- C6 (counterexample): with three stored failures, the last at 1 s, an attempt
that fails 31 minutes later leaves the count 4, not 1: the record was not reset. -/
theorem elapsed_window_keeps_small_count :
    (stamped 3).failedLoginAttempts "x@mail.com" = some (.number 3) ∧
    (stamped 3).lastLoginAttempt "x@mail.com" = some 1000 ∧
    (1800000 : Int) ≤ 1861000 - 1000 ∧
    (login (fun _ _ => .denied) 1861000 1861000 (stamped 3)
      ⟨"x@mail.com", "wrong"⟩).state.failedLoginAttempts "x@mail.com"
      = some (.number 4) := by
  refine ⟨by decide, by decide, by decide, by decide⟩

end Authentication

namespace Listing

/-! ## Paginated listings -/

theorem ediv_eq_ceil (totalCount : Nat) (page_size : Int) (h : 1 ≤ page_size) :
    ((totalCount : Int) + page_size - 1) / page_size
      = ⌈(totalCount : ℚ) / (page_size : ℚ)⌉ := by
  have hpos : 0 < page_size := by omega
  have hq : (0 : ℚ) < (page_size : ℚ) := by exact_mod_cast hpos
  have h1 := Int.ediv_add_emod ((totalCount : Int) + page_size - 1) page_size
  have h2 := Int.emod_nonneg ((totalCount : Int) + page_size - 1) (ne_of_gt hpos)
  have h3 := Int.emod_lt_of_pos ((totalCount : Int) + page_size - 1) hpos
  symm
  rw [Int.ceil_eq_iff]
  constructor
  · rw [lt_div_iff₀ hq]
    have : (((totalCount : Int) + page_size - 1) / page_size - 1) * page_size
        < (totalCount : Int) := by nlinarith
    exact_mod_cast this
  · rw [div_le_iff₀ hq]
    have : (totalCount : Int) ≤ (((totalCount : Int) + page_size - 1) / page_size) * page_size := by
      nlinarith
    exact_mod_cast this

theorem ceilDiv_of_pos (totalCount : Nat) (page_size : Int) (h : 1 ≤ page_size) :
    ceilDiv totalCount page_size = .int ⌈(totalCount : ℚ) / (page_size : ℚ)⌉ := by
  have hne : page_size ≠ 0 := by omega
  have hpos : 0 < page_size := by omega
  simp only [ceilDiv, hne, hpos, if_true, if_false, ediv_eq_ceil totalCount page_size h]

theorem one_lt_ceil_iff (totalCount : Nat) (page_size : Int) (h : 1 ≤ page_size) :
    1 < ⌈(totalCount : ℚ) / (page_size : ℚ)⌉ ↔ page_size < totalCount := by
  have hq : (0 : ℚ) < (page_size : ℚ) := by exact_mod_cast (by omega : 0 < page_size)
  rw [Int.lt_ceil, Int.cast_one, lt_div_iff₀ hq, one_mul]
  exact_mod_cast Iff.rfl

theorem pageFlags_of_pos (totalCount : Nat) (page_number page_size : Int)
    (h : 1 ≤ page_size) :
    pageFlags totalCount page_number page_size =
      (.int (max 1 ⌈(totalCount : ℚ) / (page_size : ℚ)⌉),
        decide (1 < page_number ∧ 1 < ⌈(totalCount : ℚ) / (page_size : ℚ)⌉),
        decide (page_number < ⌈(totalCount : ℚ) / (page_size : ℚ)⌉ ∧
          1 < ⌈(totalCount : ℚ) / (page_size : ℚ)⌉)) := by
  unfold pageFlags
  rw [ceilDiv_of_pos totalCount page_size h]
  generalize ⌈(totalCount : ℚ) / (page_size : ℚ)⌉ = c
  simp only [JsNumber.lt]
  by_cases h1 : c < 1
  · have h2 : ¬ 1 < c := by omega
    have hm : max 1 c = 1 := by omega
    simp [h1, h2, hm]
  · by_cases h2 : 1 < c
    · have hm : max 1 c = c := by omega
      simp [h1, h2, hm]
    · have hm : max 1 c = c := by omega
      simp [h1, h2, hm]

end Listing

namespace ProductsService

open Listing

theorem getProducts_of_filter (rt : Runtime) (db : Database) (query : Query) (f : Filter)
    (hf : ProductsRepository.searchDoc rt query.search = .ok f) :
    getProducts rt db query =
      .ok { page_number := query.page_number
            page_size := query.page_size
            count := db.products.countDocuments f
            total_pages :=
              (pageFlags (db.products.countDocuments f) query.page_number query.page_size).1
            has_previous_page :=
              (pageFlags (db.products.countDocuments f) query.page_number query.page_size).2.1
            has_next_page :=
              (pageFlags (db.products.countDocuments f) query.page_number query.page_size).2.2
            data := (db.products.find f (sortDoc query.sort) query.page_size
              ((query.page_number - 1) * query.page_size)).map view } := by
  simp only [getProducts, ProductsRepository.getProducts, ProductsRepository.getProductsTotal, hf]

theorem getProducts_flags (rt : Runtime) (db : Database) (query : Query)
    (r : Page ProductView) (h : getProducts rt db query = .ok r) :
    (r.total_pages, r.has_previous_page, r.has_next_page)
      = pageFlags r.count query.page_number query.page_size := by
  cases hf : ProductsRepository.searchDoc rt query.search with
  | error e =>
    simp [getProducts, ProductsRepository.getProducts, hf] at h
  | ok f =>
    rw [getProducts_of_filter rt db query f hf] at h
    cases h
    rfl

end ProductsService

namespace SalesService

open Listing

theorem getSales_of_filter (rt : Runtime) (db : Database) (query : Query) (f : Filter)
    (hf : SalesRepository.searchDoc rt query.search = .ok f) :
    getSales rt db query =
      .ok { page_number := query.page_number
            page_size := query.page_size
            count := db.sales.countDocuments f
            total_pages :=
              (pageFlags (db.sales.countDocuments f) query.page_number query.page_size).1
            has_previous_page :=
              (pageFlags (db.sales.countDocuments f) query.page_number query.page_size).2.1
            has_next_page :=
              (pageFlags (db.sales.countDocuments f) query.page_number query.page_size).2.2
            data := ((db.sales.find f (sortDoc query.sort) query.page_size
              ((query.page_number - 1) * query.page_size)).map db.populate).map view } := by
  simp only [getSales, SalesRepository.getSales, SalesRepository.getSalesTotal, hf]

theorem getSales_flags (rt : Runtime) (db : Database) (query : Query)
    (r : Page SaleView) (h : getSales rt db query = .ok r) :
    (r.total_pages, r.has_previous_page, r.has_next_page)
      = pageFlags r.count query.page_number query.page_size := by
  cases hf : SalesRepository.searchDoc rt query.search with
  | error e =>
    simp [getSales, SalesRepository.getSales, hf] at h
  | ok f =>
    rw [getSales_of_filter rt db query f hf] at h
    cases h
    rfl

theorem getUserSales_of_filter (rt : Runtime) (db : Database) (user_id : String)
    (query : Query) (f : Filter)
    (hf : SalesRepository.userSearchDoc rt user_id query.search = .ok f) :
    getUserSales rt db user_id query =
      .ok { page_number := query.page_number
            page_size := query.page_size
            count := db.sales.countDocuments f
            total_pages :=
              (pageFlags (db.sales.countDocuments f) query.page_number query.page_size).1
            has_previous_page :=
              (pageFlags (db.sales.countDocuments f) query.page_number query.page_size).2.1
            has_next_page :=
              (pageFlags (db.sales.countDocuments f) query.page_number query.page_size).2.2
            data := ((db.sales.find f (sortDoc query.sort) query.page_size
              ((query.page_number - 1) * query.page_size)).map db.populate).map view } := by
  simp only [getUserSales, SalesRepository.getUserSales, SalesRepository.getUserSalesTotal, hf]

theorem getUserSales_flags (rt : Runtime) (db : Database) (user_id : String) (query : Query)
    (r : Page SaleView) (h : getUserSales rt db user_id query = .ok r) :
    (r.total_pages, r.has_previous_page, r.has_next_page)
      = pageFlags r.count query.page_number query.page_size := by
  cases hf : SalesRepository.userSearchDoc rt user_id query.search with
  | error e =>
    simp [getUserSales, SalesRepository.getUserSales, hf] at h
  | ok f =>
    rw [getUserSales_of_filter rt db user_id query f hf] at h
    cases h
    rfl

end SalesService

namespace Listing

theorem flags_total_pages {tp : JsNumber} {hp hn : Bool} {totalCount : Nat}
    {page_number page_size : Int} (hps : 1 ≤ page_size)
    (h : (tp, hp, hn) = pageFlags totalCount page_number page_size) :
    tp = .int (max 1 ⌈(totalCount : ℚ) / (page_size : ℚ)⌉) := by
  rw [pageFlags_of_pos totalCount page_number page_size hps] at h
  exact (Prod.mk.inj h).1

theorem flags_previous {tp : JsNumber} {hp hn : Bool} {totalCount : Nat}
    {page_number page_size : Int} (hps : 1 ≤ page_size)
    (h : (tp, hp, hn) = pageFlags totalCount page_number page_size) :
    (hp = true ↔ 1 < page_number ∧ page_size < totalCount) ∧
    (page_size < totalCount ↔ (JsNumber.int 1).lt tp = true) := by
  rw [pageFlags_of_pos totalCount page_number page_size hps] at h
  obtain ⟨h1, h2⟩ := Prod.mk.inj h
  obtain ⟨h2, -⟩ := Prod.mk.inj h2
  have hc := one_lt_ceil_iff totalCount page_size hps
  subst h1 h2
  constructor
  · rw [decide_eq_true_iff, hc]
  · rw [← hc]
    simp only [JsNumber.lt, decide_eq_true_iff]
    omega

theorem flags_next {tp : JsNumber} {hp hn : Bool} {totalCount : Nat}
    {page_number page_size : Int} (hpn : 1 ≤ page_number) (hps : 1 ≤ page_size)
    (h : (tp, hp, hn) = pageFlags totalCount page_number page_size) :
    hn = true ↔ (JsNumber.int page_number).lt tp = true := by
  rw [pageFlags_of_pos totalCount page_number page_size hps] at h
  obtain ⟨h1, h2⟩ := Prod.mk.inj h
  obtain ⟨-, h2⟩ := Prod.mk.inj h2
  subst h1 h2
  simp only [JsNumber.lt, decide_eq_true_iff]
  omega

/-- C7: for every page size of at least 1 and every count, the `total_pages`
computed by the listing code is max(1, ceil(count / page size)); this is the
value in every page returned by `getProducts`, `getSales` and `getUserSales`,
and each of them returns a page whenever its filter can be built. -/
theorem total_pages_eq_max_one_ceil (rt : Runtime) (db : Database) (user_id : String)
    (query : Query) (hps : 1 ≤ query.page_size) :
    (∀ (totalCount : Nat) (page_number : Int),
      (pageFlags totalCount page_number query.page_size).1
        = .int (max 1 ⌈(totalCount : ℚ) / (query.page_size : ℚ)⌉)) ∧
    (∀ r, ProductsService.getProducts rt db query = .ok r →
      r.total_pages = .int (max 1 ⌈(r.count : ℚ) / (query.page_size : ℚ)⌉)) ∧
    (∀ r, SalesService.getSales rt db query = .ok r →
      r.total_pages = .int (max 1 ⌈(r.count : ℚ) / (query.page_size : ℚ)⌉)) ∧
    (∀ r, SalesService.getUserSales rt db user_id query = .ok r →
      r.total_pages = .int (max 1 ⌈(r.count : ℚ) / (query.page_size : ℚ)⌉)) ∧
    (∀ f, ProductsRepository.searchDoc rt query.search = .ok f →
      ∃ r, ProductsService.getProducts rt db query = .ok r ∧
        r.count = db.products.countDocuments f) ∧
    (∀ f, SalesRepository.searchDoc rt query.search = .ok f →
      ∃ r, SalesService.getSales rt db query = .ok r ∧ r.count = db.sales.countDocuments f) ∧
    (∀ f, SalesRepository.userSearchDoc rt user_id query.search = .ok f →
      ∃ r, SalesService.getUserSales rt db user_id query = .ok r ∧
        r.count = db.sales.countDocuments f) := by
  refine ⟨?_, ?_, ?_, ?_, ?_, ?_, ?_⟩
  · intro totalCount page_number
    rw [pageFlags_of_pos totalCount page_number query.page_size hps]
  · intro r h
    exact flags_total_pages hps (ProductsService.getProducts_flags rt db query r h)
  · intro r h
    exact flags_total_pages hps (SalesService.getSales_flags rt db query r h)
  · intro r h
    exact flags_total_pages hps (SalesService.getUserSales_flags rt db user_id query r h)
  · intro f hf
    exact ⟨_, ProductsService.getProducts_of_filter rt db query f hf, rfl⟩
  · intro f hf
    exact ⟨_, SalesService.getSales_of_filter rt db query f hf, rfl⟩
  · intro f hf
    exact ⟨_, SalesService.getUserSales_of_filter rt db user_id query f hf, rfl⟩

/-- C7 (witness): 25 products listed ten per page make three pages. -/
theorem total_pages_eq_max_one_ceil_witness :
    (pageFlags 25 1 10).1 = .int (max 1 ⌈((25 : Nat) : ℚ) / ((10 : Int) : ℚ)⌉) ∧
    (pageFlags 25 1 10).1 = .int 3 :=
  ⟨(total_pages_eq_max_one_ceil sampleRuntime (sampleDatabase 25) "u1" ⟨1, 10, none, none⟩
    (by decide)).1 25 1, by decide⟩

/-- C8 (as amended): for every page size of at least 1, in every page returned by
`getProducts`, `getSales` and `getUserSales` the flag `has_previous_page` is true
if and only if the page number is above 1 and there is more than one page, that
is, the count exceeds the page size (`total_pages > 1`). -/
theorem has_previous_page_iff (rt : Runtime) (db : Database) (user_id : String)
    (query : Query) (hps : 1 ≤ query.page_size) :
    (∀ r, ProductsService.getProducts rt db query = .ok r →
      (r.has_previous_page = true ↔ 1 < query.page_number ∧ query.page_size < r.count) ∧
      (query.page_size < r.count ↔ (JsNumber.int 1).lt r.total_pages = true)) ∧
    (∀ r, SalesService.getSales rt db query = .ok r →
      (r.has_previous_page = true ↔ 1 < query.page_number ∧ query.page_size < r.count) ∧
      (query.page_size < r.count ↔ (JsNumber.int 1).lt r.total_pages = true)) ∧
    (∀ r, SalesService.getUserSales rt db user_id query = .ok r →
      (r.has_previous_page = true ↔ 1 < query.page_number ∧ query.page_size < r.count) ∧
      (query.page_size < r.count ↔ (JsNumber.int 1).lt r.total_pages = true)) := by
  refine ⟨?_, ?_, ?_⟩
  · intro r h
    exact flags_previous hps (ProductsService.getProducts_flags rt db query r h)
  · intro r h
    exact flags_previous hps (SalesService.getSales_flags rt db query r h)
  · intro r h
    exact flags_previous hps (SalesService.getUserSales_flags rt db user_id query r h)

/-- C8 (witness): page 2 of 25 products, ten per page, has a previous page. -/
theorem has_previous_page_iff_witness :
    (ProductsService.getProducts sampleRuntime (sampleDatabase 25)
      ⟨2, 10, none, none⟩).toOption.map (fun r => (r.count, r.has_previous_page))
      = some (25, true) ∧
    (∀ r, ProductsService.getProducts sampleRuntime (sampleDatabase 25) ⟨2, 10, none, none⟩
        = .ok r →
      (r.has_previous_page = true ↔ (1 : Int) < 2 ∧ (10 : Int) < r.count)) :=
  ⟨by decide, fun r h =>
    ((has_previous_page_iff sampleRuntime (sampleDatabase 25) "u1" ⟨2, 10, none, none⟩
      (by decide)).1 r h).1⟩

/-- C8 (counterexample): page 2 of a listing of 5 products, ten per page, is
returned with `total_pages = 1` and `has_previous_page = false` although the
page number is above 1. -/
theorem has_previous_page_false_beyond_single_page :
    (ProductsService.getProducts sampleRuntime (sampleDatabase 5)
      ⟨2, 10, none, none⟩).toOption.map
        (fun r => (r.page_number, r.page_size, r.count, r.total_pages, r.has_previous_page))
      = some (2, 10, 5, .int 1, false) := by
  decide

/-- C9: for every page number and page size of at least 1, in every page returned
by `getProducts`, `getSales` and `getUserSales` the flag `has_next_page` is true
if and only if the page number is below the returned `total_pages`. -/
theorem has_next_page_iff (rt : Runtime) (db : Database) (user_id : String)
    (query : Query) (hpn : 1 ≤ query.page_number) (hps : 1 ≤ query.page_size) :
    (∀ r, ProductsService.getProducts rt db query = .ok r →
      (r.has_next_page = true ↔ (JsNumber.int query.page_number).lt r.total_pages = true)) ∧
    (∀ r, SalesService.getSales rt db query = .ok r →
      (r.has_next_page = true ↔ (JsNumber.int query.page_number).lt r.total_pages = true)) ∧
    (∀ r, SalesService.getUserSales rt db user_id query = .ok r →
      (r.has_next_page = true ↔ (JsNumber.int query.page_number).lt r.total_pages = true)) := by
  refine ⟨?_, ?_, ?_⟩
  · intro r h
    exact flags_next hpn hps (ProductsService.getProducts_flags rt db query r h)
  · intro r h
    exact flags_next hpn hps (SalesService.getSales_flags rt db query r h)
  · intro r h
    exact flags_next hpn hps (SalesService.getUserSales_flags rt db user_id query r h)

/-- C9 (witness): page 2 of 25 products, ten per page, has a next page; page 3
has none. -/
theorem has_next_page_iff_witness :
    (ProductsService.getProducts sampleRuntime (sampleDatabase 25)
      ⟨2, 10, none, none⟩).toOption.map (fun r => (r.total_pages, r.has_next_page))
      = some (.int 3, true) ∧
    (ProductsService.getProducts sampleRuntime (sampleDatabase 25)
      ⟨3, 10, none, none⟩).toOption.map (fun r => (r.total_pages, r.has_next_page))
      = some (.int 3, false) ∧
    (∀ r, ProductsService.getProducts sampleRuntime (sampleDatabase 25) ⟨2, 10, none, none⟩
        = .ok r →
      (r.has_next_page = true ↔ (JsNumber.int 2).lt r.total_pages = true)) :=
  ⟨by decide, by decide,
    (has_next_page_iff sampleRuntime (sampleDatabase 25) "u1" ⟨2, 10, none, none⟩
      (by decide) (by decide)).1⟩

theorem find_length {α : Type} (c : Collection α) (search : Filter) (sort : SortDoc)
    (limit skip : Int) :
    (c.find search sort limit skip).length
      = min limit.toNat (c.countDocuments search - skip.toNat) := by
  unfold Collection.find Collection.countDocuments
  rw [List.length_take, List.length_drop, (c.order_perm sort _).length_eq]

/-- C10: for every store, every query whose filter `f` can be built and every page
number and page size of at least 1, `getProducts` returns a page whose `count` is
the number N of products matching `f` and whose `data` lists, for the matching
products in the store's order for the built sort object at positions
offset .. offset + page size - 1 with offset = (page number - 1) * page size, one
item each, in that order, carrying the id, name, price, description and stock of
the product; so `data` has min(page size, N - offset) items (none when offset
exceeds N). With N = 25, page size 10 and page number 3 it has 5 items,
`total_pages = 3`, `has_next_page = false` and `has_previous_page = true`. -/
theorem getProducts_window (rt : Runtime) (db : Database) (query : Query) (f : Filter)
    (hpn : 1 ≤ query.page_number) (hps : 1 ≤ query.page_size)
    (hf : ProductsRepository.searchDoc rt query.search = .ok f) :
    ∃ r, ProductsService.getProducts rt db query = .ok r ∧
      r.count = (db.products.docs.filter (db.products.matchesFilter f)).length ∧
      r.data.map (fun item => (item.id, item.name, item.price, item.description, item.stock))
        = (((db.products.order (sortDoc query.sort)
            (db.products.docs.filter (db.products.matchesFilter f))).drop
              ((query.page_number - 1) * query.page_size).toNat).take
                query.page_size.toNat).map
          (fun product =>
            (product.id, product.name, product.price, product.description, product.stock)) ∧
      ((r.data.length : Int)
        = min query.page_size (max 0 ((r.count : Int)
            - (query.page_number - 1) * query.page_size))) ∧
      (r.count = 25 → query.page_number = 3 → query.page_size = 10 →
        r.data.length = 5 ∧ r.total_pages = .int 3 ∧ r.has_next_page = false ∧
          r.has_previous_page = true) := by
  refine ⟨_, ProductsService.getProducts_of_filter rt db query f hf, rfl, ?_, ?_, ?_⟩
  · simp only [List.map_map]
    rfl
  · simp only [List.length_map, find_length]
    have hoff : 0 ≤ (query.page_number - 1) * query.page_size :=
      Int.mul_nonneg (by omega) (by omega)
    generalize (query.page_number - 1) * query.page_size = off at hoff
    omega
  · intro hc h3 h10
    simp only [List.length_map, find_length] at hc ⊢
    rw [hc, h3, h10]
    decide

/-- C10 (witness): 25 stored products numbered 0 to 24, page 3 with ten per page:
the items are those of the products 20 to 24, in that order. -/
theorem getProducts_window_witness :
    ∃ r, ProductsService.getProducts sampleRuntime (sampleDatabase 25) ⟨3, 10, none, none⟩
        = .ok r ∧
      r.count = 25 ∧
      r.data.map (fun item => (item.id, item.name, item.price, item.description, item.stock))
        = [("20", "item", 100, "", 7), ("21", "item", 100, "", 7), ("22", "item", 100, "", 7),
           ("23", "item", 100, "", 7), ("24", "item", 100, "", 7)] ∧
      r.data.length = 5 ∧ r.total_pages = .int 3 ∧ r.has_next_page = false ∧
        r.has_previous_page = true := by
  obtain ⟨r, hr, hcount, hdata, -, h25⟩ :=
    getProducts_window sampleRuntime (sampleDatabase 25) ⟨3, 10, none, none⟩ [] (by decide)
      (by decide) rfl
  have hc : r.count = 25 := by rw [hcount]; decide
  refine ⟨r, hr, hc, ?_, h25 hc rfl rfl⟩
  rw [hdata]
  decide

end Listing

namespace Authentication

/-! ## Sequences of login attempts -/

theorem step_preserves_bounds (s : Attempts) (a : Attempt)
    (h : ∀ e c, s.failedLoginAttempts e = some (.number c) → 1 ≤ c ∧ c ≤ 5) :
    ∀ e c, (step s a).failedLoginAttempts e = some (.number c) → 1 ≤ c ∧ c ≤ 5 := by
  intro e c hstep
  unfold step login at hstep
  cases hg : lockoutCheck s a.request.email a.now with
  | none =>
    rw [hg] at hstep
    exact h e c hstep
  | some s₁ =>
    rw [hg] at hstep
    obtain ⟨-, hlt, hsub, -⟩ := lockoutCheck_some s s₁ a.request.email a.now hg
    cases ho : a.outcome with
    | threw =>
      simp only [ho] at hstep
      exact h e c (hsub e _ hstep)
    | granted =>
      simp only [ho, recordSuccess, deleteKey] at hstep
      by_cases hke : e = a.request.email
      · simp [hke] at hstep
      · simp only [hke, if_false] at hstep
        exact h e c (hsub e _ hstep)
    | denied =>
      simp only [ho, recordFailure, assign] at hstep
      split at hstep
      · exact h e c (hsub e _ hstep)
      · by_cases hke : e = a.request.email
        · simp only [hke, if_true, Option.some.injEq] at hstep
          unfold read at hstep
          cases hs : s₁.failedLoginAttempts a.request.email with
          | none =>
            rw [hs] at hstep
            simp only at hstep
            split at hstep
            · simp [orZeroPlusOne] at hstep
            · simp only [orZeroPlusOne, Stored.number.injEq] at hstep
              omega
          | some v =>
            rw [hs] at hstep
            cases v with
            | number c₁ =>
              simp only [orZeroPlusOne, Stored.number.injEq] at hstep
              have := hlt c₁ hs
              omega
            | text ones => simp [orZeroPlusOne] at hstep
        · simp only [hke, if_false] at hstep
          exact h e c (hsub e _ hstep)

theorem foldl_step_preserves_bounds (trace : List Attempt) (s : Attempts)
    (h : ∀ e c, s.failedLoginAttempts e = some (.number c) → 1 ≤ c ∧ c ≤ 5) :
    ∀ e c, (trace.foldl step s).failedLoginAttempts e = some (.number c) → 1 ≤ c ∧ c ≤ 5 := by
  induction trace generalizing s with
  | nil => exact h
  | cons a rest ih => exact ih (step s a) (step_preserves_bounds s a h)

/-- In every state reached from the empty state by a sequence of login attempts,
every number stored as a failure count is between 1 and 5, and a failed attempt
for an email holding the number 5 is either rejected, leaving the 5, or has the
count deleted first and then stores 1. What is stored for an inherited key is
not a number and is not covered. -/
theorem numeric_failure_count_bounds (trace : List Attempt) :
    (∀ e c, (run trace).failedLoginAttempts e = some (.number c) → 1 ≤ c ∧ c ≤ 5) ∧
    (∀ a : Attempt, (run trace).failedLoginAttempts a.request.email = some (.number 5) →
      a.outcome = .denied →
      ((login (fun _ _ => a.outcome) a.now a.later (run trace) a.request).response
          = .tooManyFailedLoginAttempts ∧
        (step (run trace) a).failedLoginAttempts a.request.email = some (.number 5)) ∨
      ((lockoutCheck (run trace) a.request.email a.now).map
          (fun s₁ => s₁.failedLoginAttempts a.request.email) = some none ∧
        (step (run trace) a).failedLoginAttempts a.request.email = some (.number 1))) := by
  refine ⟨foldl_step_preserves_bounds trace Attempts.empty
    (fun _ _ h => by simp [Attempts.empty] at h), ?_⟩
  intro a h5 hd
  have hi : inherited a.request.email = false := (run trace).number_own _ 5 h5
  cases hg : lockoutCheck (run trace) a.request.email a.now with
  | none =>
    left
    refine ⟨(login_response_lockout_iff _ _ _ _ _).mpr hg, ?_⟩
    simp only [step, login, hg]
    exact h5
  | some s₁ =>
    right
    obtain ⟨-, hlt, -, hor⟩ := lockoutCheck_some (run trace) s₁ a.request.email a.now hg
    have hnone : s₁.failedLoginAttempts a.request.email = none := by
      rcases hor with heq | hn
      · subst heq
        have := hlt 5 h5
        omega
      · exact hn
    refine ⟨by simp [hnone], ?_⟩
    have hr := recordFailure_count s₁ a.request.email a.later hi
    rw [read_absent _ _ hnone hi] at hr
    simp only [step, login, hg, hd]
    exact hr.1

/-- C20 (the code at the failing input): seven failed logins of the email
`constructor`, all from the empty state, are each answered with the
invalid-credentials error; what is stored for the email is never a number but a
string that grows by one character with every failure, the sixth and the seventh
failure are recorded without the entry having been deleted, and the attempt
after them still reaches the credential check. The same attempts for
`x@mail.com` stop at the count 5. -/
theorem failures_of_inherited_key_unbounded :
    (run (List.replicate 5 ⟨⟨"constructor", "wrong"⟩, .denied, 1000, 1000⟩)).failedLoginAttempts
      "constructor" = some (.text 5) ∧
    (lockoutCheck (run (List.replicate 5 ⟨⟨"constructor", "wrong"⟩, .denied, 1000, 1000⟩))
      "constructor" 1000).map (fun s₁ => s₁.failedLoginAttempts "constructor")
      = some (some (.text 5)) ∧
    (login (fun _ _ => .denied) 1000 1000
      (run (List.replicate 5 ⟨⟨"constructor", "wrong"⟩, .denied, 1000, 1000⟩))
      ⟨"constructor", "wrong"⟩).response = .invalidCredentials ∧
    (run (List.replicate 6 ⟨⟨"constructor", "wrong"⟩, .denied, 1000, 1000⟩)).failedLoginAttempts
      "constructor" = some (.text 6) ∧
    (run (List.replicate 7 ⟨⟨"constructor", "wrong"⟩, .denied, 1000, 1000⟩)).failedLoginAttempts
      "constructor" = some (.text 7) ∧
    (login (fun _ _ => .denied) 1000 1000
      (run (List.replicate 7 ⟨⟨"constructor", "wrong"⟩, .denied, 1000, 1000⟩))
      ⟨"constructor", "wrong"⟩).credentialCalls = [("constructor", "wrong")] ∧
    (run (List.replicate 7 ⟨⟨"x@mail.com", "wrong"⟩, .denied, 1000, 1000⟩)).failedLoginAttempts
      "x@mail.com" = some (.number 5) := by
  refine ⟨by decide, by decide, by decide, by decide, by decide, by decide, by decide⟩

end Authentication

namespace Listing

/-! ## Query builders -/

theorem splitColon_of_not_mem (l : List Char) (h : ':' ∉ l) : splitColon l = [l] := by
  induction l with
  | nil => rfl
  | cons c cs ih =>
    have hc : c ≠ ':' := fun e => h (by simp [e])
    have hcs : ':' ∉ cs := fun e => h (by simp [e])
    simp [splitColon, hc, ih hcs]

theorem splitColon_append_colon (l r : List Char) (h : ':' ∉ l) :
    splitColon (l ++ ':' :: r) = l :: splitColon r := by
  induction l with
  | nil => simp [splitColon]
  | cons c cs ih =>
    have hc : c ≠ ':' := fun e => h (by simp [e])
    have hcs : ':' ∉ cs := fun e => h (by simp [e])
    simp [splitColon, hc, ih hcs]

theorem splitPair_no_colon (s : String) (h : ':' ∉ s.toList) : splitPair s = (s, none) := by
  simp only [splitPair, splitColon_of_not_mem s.toList h]
  rfl

theorem splitPair_field_colon (f rest : String) (hf : ':' ∉ f.toList) :
    (splitPair (f ++ ":" ++ rest)).1 = f := by
  have hl : (f ++ ":" ++ rest).toList = f.toList ++ ':' :: rest.toList := by
    simp [String.toList, String.data_append]
  simp only [splitPair, hl, splitColon_append_colon f.toList rest.toList hf]
  cases hr : splitColon rest.toList <;> rfl

theorem splitPair_field_value (f v : String) (hf : ':' ∉ f.toList) (hv : ':' ∉ v.toList) :
    splitPair (f ++ ":" ++ v) = (f, some v) := by
  have hl : (f ++ ":" ++ v).toList = f.toList ++ ':' :: v.toList := by
    simp [String.toList, String.data_append]
  simp only [splitPair, hl, splitColon_append_colon f.toList v.toList hf,
    splitColon_of_not_mem v.toList hv]
  rfl

theorem append_colon_ne_empty (f rest : String) : f ++ ":" ++ rest ≠ "" := by
  intro h
  have := congrArg String.data h
  simp [String.data_append] at this

end Listing

namespace Listing

theorem sortDoc_field_order (f order : String) (hf : ':' ∉ f.toList)
    (ho : ':' ∉ order.toList) :
    sortDoc (some (f ++ ":" ++ order)) = [(f, if order = "desc" then -1 else 0)] := by
  simp only [sortDoc, append_colon_ne_empty f order, if_false,
    splitPair_field_value f order hf ho, Option.some.injEq]

/-- C17: for every field name `f` (a name without a colon, the field part of the
format), the sort string `f:desc` yields the sort object with the single key `f`
and the direction -1; this is the sort object that `getProducts`, `getSales`,
`getUserSales` and `getUsers` hand to the store. -/
theorem sort_desc (rt : Runtime) (db : Database) (user_id : String) (query : Query)
    (f : String) (hf : ':' ∉ f.toList) (hq : query.sort = some (f ++ ":" ++ "desc")) :
    sortDoc query.sort = [(f, -1)] ∧
    ProductsRepository.getProducts rt db query =
      (match ProductsRepository.searchDoc rt query.search with
        | .error e => .error e
        | .ok search => .ok (db.products.find search [(f, -1)] query.page_size
            ((query.page_number - 1) * query.page_size))) ∧
    SalesRepository.getSales rt db query =
      (match SalesRepository.searchDoc rt query.search with
        | .error e => .error e
        | .ok search => .ok ((db.sales.find search [(f, -1)] query.page_size
            ((query.page_number - 1) * query.page_size)).map db.populate)) ∧
    SalesRepository.getUserSales rt db user_id query =
      (match SalesRepository.userSearchDoc rt user_id query.search with
        | .error e => .error e
        | .ok search => .ok ((db.sales.find search [(f, -1)] query.page_size
            ((query.page_number - 1) * query.page_size)).map db.populate)) ∧
    UsersRepository.getUsers rt db query =
      (match UsersRepository.searchDoc rt query.search with
        | .error e => .error e
        | .ok search => .ok (db.users.find search [(f, -1)] query.page_size
            ((query.page_number - 1) * query.page_size))) := by
  have hs : sortDoc query.sort = [(f, -1)] := by
    rw [hq, sortDoc_field_order f "desc" hf (by decide)]
    rfl
  refine ⟨hs, ?_, ?_, ?_, ?_⟩
  · simp only [ProductsRepository.getProducts, hs]
  · simp only [SalesRepository.getSales, hs]
  · simp only [SalesRepository.getUserSales, hs]
  · simp only [UsersRepository.getUsers, hs]

/-- C17 (witness): the sort string `price:desc`. -/
theorem sort_desc_witness :
    sortDoc (some "price:desc") = [("price", -1)] :=
  (sort_desc sampleRuntime (sampleDatabase 3) "u1" ⟨1, 10, some "price:desc", none⟩ "price"
    (by decide) rfl).1

/-- C18 (as amended): an absent or empty sort string yields the empty sort object;
every other sort string, with or without a colon and whatever its order part,
yields a sort object with exactly one key, the part before the first colon, so
the sort object is empty only for an absent or empty sort string. -/
theorem sort_empty_iff (sort : Option String) :
    (sortDoc none = [] ∧ sortDoc (some "") = []) ∧
    (sortDoc sort = [] ↔ sort = none ∨ sort = some "") ∧
    (∀ s, sort = some s → s ≠ "" → ∃ direction, sortDoc sort = [((splitPair s).1, direction)]) ∧
    (∀ s, sort = some s → s ≠ "" → ':' ∉ s.toList → ∃ direction, sortDoc sort = [(s, direction)])
    := by
  refine ⟨⟨rfl, rfl⟩, ?_, ?_, ?_⟩
  · cases sort with
    | none => simp [sortDoc]
    | some s =>
      by_cases hs : s = ""
      · simp [sortDoc, hs]
      · simp [sortDoc, hs]
  · intro s hsort hs
    subst hsort
    exact ⟨if (splitPair s).2 = some "desc" then -1 else 0, by
      simp only [sortDoc, hs, if_false]⟩
  · intro s hsort hs hc
    subst hsort
    refine ⟨0, ?_⟩
    simp [sortDoc, hs, splitPair_no_colon s hc]

/-- C18 (counterexample): the sort string `bogus`, which has no colon, and the
sort string `name:up`, whose order part is neither `asc` nor `desc`, each yield
a sort object with one key, not the empty one. -/
theorem sort_unrecognized_not_empty :
    sortDoc (some "bogus") = [("bogus", 0)] ∧ sortDoc (some "bogus") ≠ [] ∧
    sortDoc (some "name:up") = [("name", 0)] ∧ sortDoc (some "name:up") ≠ [] := by
  refine ⟨by decide, by decide, by decide, by decide⟩

theorem sortDoc_asc (f : String) (hf : ':' ∉ f.toList) :
    sortDoc (some (f ++ ":" ++ "asc")) = [(f, 0)] := by
  rw [sortDoc_field_order f "asc" hf (by decide)]
  rfl

/-- C19 (the code at the failing input): the sort strings `price:asc` and
`name:asc` yield the direction 0, not 1; `price:desc` yields -1. -/
theorem sort_asc_direction_zero :
    sortDoc (some "price:asc") = [("price", 0)] ∧
    sortDoc (some "name:asc") = [("name", 0)] ∧
    sortDoc (some "price:asc") ≠ [("price", 1)] ∧
    sortDoc (some "price:desc") = [("price", -1)] := by
  refine ⟨by decide, by decide, by decide, by decide⟩

end Listing

namespace Listing

theorem splitColon_head (r : List Char) :
    ∃ rest, splitColon r = r.takeWhile (fun c => decide (c ≠ ':')) :: rest := by
  induction r with
  | nil => exact ⟨[], rfl⟩
  | cons c cs ih =>
    obtain ⟨rest, hrest⟩ := ih
    by_cases hc : c = ':'
    · exact ⟨splitColon cs, by simp [splitColon, hc]⟩
    · exact ⟨rest, by simp [splitColon, hc, hrest]⟩

theorem splitPair_field_cut (f v v₁ : String) (hf : ':' ∉ f.toList)
    (hcut : v₁.toList = v.toList.takeWhile (fun c => decide (c ≠ ':'))) :
    splitPair (f ++ ":" ++ v) = (f, some v₁) := by
  have hl : (f ++ ":" ++ v).toList = f.toList ++ ':' :: v.toList := by
    simp [String.toList, String.data_append]
  obtain ⟨rest, hrest⟩ := splitColon_head v.toList
  simp only [splitPair, hl, splitColon_append_colon f.toList v.toList hf, hrest, ← hcut]
  rfl

theorem products_searchDoc_cut (rt : Runtime) (f v v₁ : String) (hf : ':' ∉ f.toList)
    (hcut : v₁.toList = v.toList.takeWhile (fun c => decide (c ≠ ':'))) :
    ProductsRepository.searchDoc rt (some (f ++ ":" ++ v)) =
      if v₁ = "" then .ok []
      else if f ≠ "price" then
        if rt.regExpCompiles v₁ then .ok [(f, .regExp v₁ "i")] else .error (.syntaxError v₁)
      else .ok [(f, .value v₁)] := by
  simp only [ProductsRepository.searchDoc, append_colon_ne_empty f v, if_false,
    splitPair_field_cut f v v₁ hf hcut]

/-- C14 (as amended): in the products query builder, for every field name `f`
without a colon and every value `v`, the search `f:v` is read with `v₁`, the
part of `v` before its first colon (`v` itself when it has no colon), as its
value. When `v₁` is empty no filter is built. When it is not empty, the search
`price:v` yields the exact-match filter with the single key `price` and the
value `v₁`, and for `f` other than `price` the search `f:v` yields the filter
with the single key `f` and the pattern of source `v₁` with the flag `i` when
`v₁` compiles as a regular expression, and throws the `SyntaxError` of
`new RegExp` when it does not. The filter of `name:abc` matches a product named
`ABC123`. -/
theorem products_search_filter (rt : Runtime) (f v v₁ : String) (hf : ':' ∉ f.toList)
    (hcut : v₁.toList = v.toList.takeWhile (fun c => decide (c ≠ ':'))) :
    (':' ∉ v.toList → v₁ = v) ∧
    (v₁ = "" → ProductsRepository.searchDoc rt (some (f ++ ":" ++ v)) = .ok []) ∧
    (v₁ ≠ "" →
      ProductsRepository.searchDoc rt (some ("price" ++ ":" ++ v))
        = .ok [("price", .value v₁)] ∧
      (f ≠ "price" → rt.regExpCompiles v₁ = true →
        ProductsRepository.searchDoc rt (some (f ++ ":" ++ v)) = .ok [(f, .regExp v₁ "i")]) ∧
      (f ≠ "price" → rt.regExpCompiles v₁ = false →
        ProductsRepository.searchDoc rt (some (f ++ ":" ++ v)) = .error (.syntaxError v₁))) ∧
    (fieldCollection ProductDoc.field [abcProduct]).matchesFilter
      [("name", .regExp "abc" "i")] abcProduct = true := by
  refine ⟨?_, ?_, ?_, by decide⟩
  · intro hv
    have htake : v.toList.takeWhile (fun c => decide (c ≠ ':')) = v.toList := by
      rw [List.takeWhile_eq_self_iff]
      intro c hc
      have : c ≠ ':' := fun e => hv (e ▸ hc)
      simpa using this
    rw [htake] at hcut
    exact String.ext hcut
  · intro he
    rw [products_searchDoc_cut rt f v v₁ hf hcut, if_pos he]
  · intro hne
    refine ⟨?_, ?_, ?_⟩
    · rw [products_searchDoc_cut rt "price" v v₁ (by decide) hcut, if_neg hne]
      simp
    · intro hfp hc
      rw [products_searchDoc_cut rt f v v₁ hf hcut, if_neg hne]
      simp [hfp, hc]
    · intro hfp hc
      rw [products_searchDoc_cut rt f v v₁ hf hcut, if_neg hne]
      simp [hfp, hc]

/-- C14 (witness): the searches `price:100`, `name:abc` and `price:1:2`. -/
theorem products_search_filter_witness :
    ProductsRepository.searchDoc sampleRuntime (some "price:100")
      = .ok [("price", .value "100")] ∧
    ProductsRepository.searchDoc sampleRuntime (some "name:abc")
      = .ok [("name", .regExp "abc" "i")] ∧
    ProductsRepository.searchDoc sampleRuntime (some "price:1:2")
      = .ok [("price", .value "1")] :=
  ⟨((products_search_filter sampleRuntime "name" "100" "100" (by decide) (by decide)).2.2.1
      (by decide)).1,
    ((products_search_filter sampleRuntime "name" "abc" "abc" (by decide) (by decide)).2.2.1
      (by decide)).2.1 (by decide) rfl,
    ((products_search_filter sampleRuntime "name" "1:2" "1" (by decide) (by decide)).2.2.1
      (by decide)).1⟩

/-- C14 (counterexample): three searches whose value is not empty and for which
the claimed filter is not built. With a runtime in which the source `(` does not
compile, `description:(` yields no filter at all: the builder throws. The search
`price:1:2`, of value `1:2`, yields the filter `price` = `1`, and the search
`price::5`, of value `:5`, yields no filter: the value is cut at its first
colon. -/
theorem products_search_pattern_throws :
    strictRuntime.regExpCompiles "(" = false ∧
    (ProductsRepository.searchDoc strictRuntime (some "description:(")).toOption = none ∧
    (ProductsRepository.getProductsTotal strictRuntime (sampleDatabase 3)
      (some "description:(")).toOption = none ∧
    "price:1:2" = "price" ++ ":" ++ "1:2" ∧
    (ProductsRepository.searchDoc sampleRuntime (some "price:1:2")).toOption
      = some [("price", .value "1")] ∧
    (ProductsRepository.searchDoc sampleRuntime (some "price:1:2")).toOption
      ≠ some [("price", .value "1:2")] ∧
    "price::5" = "price" ++ ":" ++ ":5" ∧
    (ProductsRepository.searchDoc sampleRuntime (some "price::5")).toOption = some [] := by
  refine ⟨by decide, by decide, by decide, by decide, by decide, by decide, by decide,
    by decide⟩

end Listing

namespace Listing

theorem products_searchDoc_error_iff (rt : Runtime) (search : Option String) (e : Failure) :
    ProductsRepository.searchDoc rt search = .error e ↔
      ∃ s v, search = some s ∧ s ≠ "" ∧ (splitPair s).2 = some v ∧ v ≠ "" ∧
        (splitPair s).1 ≠ "price" ∧ rt.regExpCompiles v = false ∧ e = .syntaxError v := by
  unfold ProductsRepository.searchDoc
  cases search with
  | none => simp
  | some s =>
    by_cases hs : s = ""
    · simp [hs]
    · cases hv : (splitPair s).2 with
      | none => simp [hs, hv]
      | some v =>
        by_cases hve : v = ""
        · simp [hs, hv, hve]
        · by_cases hp : (splitPair s).1 = "price"
          · simp [hs, hv, hve, hp]
          · cases hc : rt.regExpCompiles v with
            | true => simp [hs, hv, hve, hp, hc]
            | false =>
              constructor
              · intro h
                simp [hs, hv, hve, hp, hc] at h
                exact ⟨s, v, rfl, hs, hv, hve, hp, hc, by first | exact h | exact h.symm⟩
              · rintro ⟨s₂, v₂, hs₂, -, hv₂, -, -, -, he⟩
                cases hs₂
                rw [hv] at hv₂
                cases hv₂
                simp [hs, hv, hve, hp, hc, he]

theorem users_searchDoc_error_iff (rt : Runtime) (search : Option String) (e : Failure) :
    UsersRepository.searchDoc rt search = .error e ↔
      ∃ s v, search = some s ∧ s ≠ "" ∧ (splitPair s).2 = some v ∧ v ≠ "" ∧
        rt.regExpCompiles v = false ∧ e = .syntaxError v := by
  unfold UsersRepository.searchDoc
  cases search with
  | none => simp
  | some s =>
    by_cases hs : s = ""
    · simp [hs]
    · cases hv : (splitPair s).2 with
      | none => simp [hs, hv]
      | some v =>
        by_cases hve : v = ""
        · simp [hs, hv, hve]
        · cases hc : rt.regExpCompiles v with
          | true => simp [hs, hv, hve, hc]
          | false =>
            constructor
            · intro h
              simp [hs, hv, hve, hc] at h
              exact ⟨s, v, rfl, hs, hv, hve, hc, by first | exact h | exact h.symm⟩
            · rintro ⟨s₂, v₂, hs₂, -, hv₂, -, -, he⟩
              cases hs₂
              rw [hv] at hv₂
              cases hv₂
              simp [hs, hv, hve, hc, he]

end Listing

namespace Listing

theorem no_filter_without_value (rt : Runtime) (f : String) (hf : ':' ∉ f.toList) :
    (ProductsRepository.searchDoc rt (some f) = .ok [] ∧
      SalesRepository.searchDoc rt (some f) = .ok [] ∧
      UsersRepository.searchDoc rt (some f) = .ok []) ∧
    (ProductsRepository.searchDoc rt (some (f ++ ":" ++ "")) = .ok [] ∧
      SalesRepository.searchDoc rt (some (f ++ ":" ++ "")) = .ok [] ∧
      UsersRepository.searchDoc rt (some (f ++ ":" ++ "")) = .ok []) := by
  have h1 := splitPair_no_colon f hf
  have h2 := splitPair_field_value f "" hf (by decide)
  have h3 := append_colon_ne_empty f ""
  refine ⟨⟨?_, ?_, ?_⟩, ⟨?_, ?_, ?_⟩⟩
  · by_cases hs : f = "" <;> simp [ProductsRepository.searchDoc, hs, h1]
  · by_cases hs : f = "" <;> simp [SalesRepository.searchDoc, hs, h1]
  · by_cases hs : f = "" <;> simp [UsersRepository.searchDoc, hs, h1]
  · simp only [ProductsRepository.searchDoc, h3, if_false, h2, if_true]
  · simp only [SalesRepository.searchDoc, h3, if_false, h2, if_true]
  · simp only [UsersRepository.searchDoc, h3, if_false, h2, if_true]

/-- C15 (the code at the failing input): for the searches `name` and `name:`, whose
value part is missing or empty, `getUsersTotal` builds a filter with the key
`name` and the pattern of empty source, while `getUsers` builds the empty filter;
for the search `bogus` on two stored users the count is 0 and the fetch returns
both users. -/
theorem users_total_filter_not_empty :
    (UsersRepository.totalSearchDoc sampleRuntime (some "name")).toOption
      = some [("name", .regExp "" "i")] ∧
    (UsersRepository.totalSearchDoc sampleRuntime (some "name:")).toOption
      = some [("name", .regExp "" "i")] ∧
    (UsersRepository.searchDoc sampleRuntime (some "name")).toOption = some [] ∧
    (UsersRepository.searchDoc sampleRuntime (some "name:")).toOption = some [] ∧
    (UsersRepository.getUsersTotal sampleRuntime twoUsersDatabase (some "bogus")).toOption
      = some 0 ∧
    (UsersRepository.getUsers sampleRuntime twoUsersDatabase
      ⟨1, 10, none, some "bogus"⟩).toOption.map (fun users => users.map (fun u => u.id))
      = some ["u1", "u2"] := by
  refine ⟨by decide, by decide, by decide, by decide, by decide, by decide⟩

theorem getProducts_error_iff (rt : Runtime) (db : Database) (query : Query) (e : Failure) :
    ProductsRepository.getProducts rt db query = .error e ↔
      ProductsRepository.searchDoc rt query.search = .error e := by
  unfold ProductsRepository.getProducts
  cases ProductsRepository.searchDoc rt query.search <;> simp

theorem getUsers_error_iff (rt : Runtime) (db : Database) (query : Query) (e : Failure) :
    UsersRepository.getUsers rt db query = .error e ↔
      UsersRepository.searchDoc rt query.search = .error e := by
  unfold UsersRepository.getUsers
  cases UsersRepository.searchDoc rt query.search <;> simp

/-- C16 (as amended): building the sort object never throws, and building the
filter throws in exactly one case, whatever the sort string: the search string
has a non-empty value part that reaches `new RegExp` (for a field other than
`price` in `getProducts`, for any field in `getUsers`) and does not compile as a
regular expression; the error is then the `SyntaxError` for that value. A search
string without a colon yields the empty filter. -/
theorem builders_throw_iff (rt : Runtime) (db : Database) (query : Query) (e : Failure) :
    (ProductsRepository.getProducts rt db query = .error e ↔
      ∃ s v, query.search = some s ∧ s ≠ "" ∧ (splitPair s).2 = some v ∧ v ≠ "" ∧
        (splitPair s).1 ≠ "price" ∧ rt.regExpCompiles v = false ∧ e = .syntaxError v) ∧
    (UsersRepository.getUsers rt db query = .error e ↔
      ∃ s v, query.search = some s ∧ s ≠ "" ∧ (splitPair s).2 = some v ∧ v ≠ "" ∧
        rt.regExpCompiles v = false ∧ e = .syntaxError v) ∧
    (∀ s, ':' ∉ s.toList →
      ProductsRepository.searchDoc rt (some s) = .ok [] ∧
      UsersRepository.searchDoc rt (some s) = .ok []) := by
  refine ⟨?_, ?_, ?_⟩
  · rw [getProducts_error_iff, products_searchDoc_error_iff]
  · rw [getUsers_error_iff, users_searchDoc_error_iff]
  · intro s hs
    exact ⟨(no_filter_without_value rt s hs).1.1, (no_filter_without_value rt s hs).1.2.2⟩

/-- C16 (counterexample): with a runtime in which the source `(` does not compile,
`getProducts` and `getUsers` throw on the search `name:(`. -/
theorem builders_throw_on_bad_pattern :
    strictRuntime.regExpCompiles "(" = false ∧
    ProductsRepository.getProducts strictRuntime (sampleDatabase 3)
      ⟨1, 10, some "name:desc", some "name:("⟩ = .error (.syntaxError "(") ∧
    UsersRepository.getUsers strictRuntime twoUsersDatabase
      ⟨1, 10, none, some "name:("⟩ = .error (.syntaxError "(") := by
  refine ⟨by decide, ?_, ?_⟩
  · rw [getProducts_error_iff, products_searchDoc_error_iff]
    exact ⟨"name:(", "(", rfl, by decide, by decide, by decide, by decide, by decide, rfl⟩
  · rw [getUsers_error_iff, users_searchDoc_error_iff]
    exact ⟨"name:(", "(", rfl, by decide, by decide, by decide, by decide, rfl⟩

/-- C11 (as amended): the normalized page number is 1 and the normalized page size
is 10 when the raw parameter is absent or the empty string; every other raw
string is normalized to `parseInt` of it, with no default. -/
theorem page_defaults (query : RawQuery) :
    (query.page_number = none ∨ query.page_number = some "" → pageNumber query = some 1) ∧
    (query.page_size = none ∨ query.page_size = some "" → pageSize query = some 10) ∧
    (∀ raw, query.page_number = some raw → raw ≠ "" → pageNumber query = parseInt raw) ∧
    (∀ raw, query.page_size = some raw → raw ≠ "" → pageSize query = parseInt raw) := by
  refine ⟨?_, ?_, ?_, ?_⟩
  · rintro (h | h) <;> simp [pageNumber, h]
  · rintro (h | h) <;> simp [pageSize, h]
  · intro raw h hne
    simp [pageNumber, h, hne]
  · intro raw h hne
    simp [pageSize, h, hne]

/-- C11 (counterexample): the raw page number `abc` is normalized to `NaN`, not to
1; the raw page size `abc` to `NaN`, not to 10; the raw page size `0` to 0 and
the raw page number `-3` to -3, which are not positive. -/
theorem page_parameters_not_defaulted :
    pageNumber ⟨some "abc", none, none, none⟩ = none ∧
    pageSize ⟨none, some "abc", none, none⟩ = none ∧
    pageSize ⟨none, some "0", none, none⟩ = some 0 ∧
    pageNumber ⟨some "-3", none, none, none⟩ = some (-3) := by
  refine ⟨by decide, by decide, by decide, by decide⟩

theorem getProducts_ignores_users (rt : Runtime) (db : Database)
    (users : Collection UserDoc) (query : Query) :
    ProductsService.getProducts rt { db with users := users } query
      = ProductsService.getProducts rt db query := rfl

/-- C12 (the code at the failing input): on a store with one user, one product and
one sale of that product to that user, each item returned by `getSales` and by
`getUserSales` carries the stored password hash of the user, so two stores that
differ only in that hash give different listings; the listing of products is the
same for both. -/
theorem sales_listing_exposes_password :
    (SalesService.getSales sampleRuntime (oneSaleDatabase "hash-A")
      ⟨1, 10, none, none⟩).toOption.map
        (fun r => r.data.map (fun v => v.user.map (fun u => u.password)))
      = some [some "hash-A"] ∧
    (SalesService.getSales sampleRuntime (oneSaleDatabase "hash-B")
      ⟨1, 10, none, none⟩).toOption.map
        (fun r => r.data.map (fun v => v.user.map (fun u => u.password)))
      = some [some "hash-B"] ∧
    (SalesService.getUserSales sampleRuntime (oneSaleDatabase "hash-A") "u1"
      ⟨1, 10, none, none⟩).toOption.map
        (fun r => r.data.map (fun v => v.user.map (fun u => u.password)))
      = some [some "hash-A"] ∧
    (SalesService.getSales sampleRuntime (oneSaleDatabase "hash-A")
        ⟨1, 10, none, none⟩).toOption.map (fun r => r.data)
      ≠ (SalesService.getSales sampleRuntime (oneSaleDatabase "hash-B")
        ⟨1, 10, none, none⟩).toOption.map (fun r => r.data) ∧
    (ProductsService.getProducts sampleRuntime (oneSaleDatabase "hash-A")
        ⟨1, 10, none, none⟩).toOption.map (fun r => r.data)
      = (ProductsService.getProducts sampleRuntime (oneSaleDatabase "hash-B")
        ⟨1, 10, none, none⟩).toOption.map (fun r => r.data) := by
  refine ⟨by decide, by decide, by decide, by decide, by decide⟩

theorem userSearchDoc_user_key (rt : Runtime) (user_id : String) (search : Option String)
    (filter : Filter) (h : SalesRepository.userSearchDoc rt user_id search = .ok filter) :
    ("user", Condition.value user_id) ∈ filter ∨
    ∃ f v, filter = [(f, .regExp v "i")] ∧ f ≠ "user" ∧ f ≠ "date" ∧
      f ≠ "delivery_status" := by
  unfold SalesRepository.userSearchDoc at h
  cases search with
  | none => simp at h; subst h; simp
  | some s =>
    by_cases hs : s = ""
    · simp [hs] at h; subst h; simp
    · cases hv : (splitPair s).2 with
      | none => simp [hs, hv] at h; subst h; simp
      | some v =>
        by_cases hu : v = "" ∨ (splitPair s).1 = "user"
        · simp [hs, hv, hu] at h; subst h; simp
        · have hu1 : v ≠ "" := fun e => hu (Or.inl e)
          have hu2 : (splitPair s).1 ≠ "user" := fun e => hu (Or.inr e)
          by_cases hd : (splitPair s).1 = "date"
          · simp [hs, hv, hu1, hu2, hd, setField] at h; subst h; simp
          · by_cases hds : (splitPair s).1 = "delivery_status"
            · simp [hs, hv, hu1, hu2, hds, setField] at h; subst h; simp
            · cases hc : rt.regExpCompiles v with
              | false => simp [hs, hv, hu1, hu2, hd, hds, hc] at h
              | true =>
                simp [hs, hv, hu1, hu2, hd, hds, hc] at h
                subst h
                exact Or.inr ⟨_, _, rfl, hu2, hd, hds⟩

/-- C13 (the code at the failing input): for the user `u1` and the search
`address:jl` the filter built by `getUserSales` and `getUserSalesTotal` has the
single key `address` and no condition on `user`; on a store with one sale of
`u1` and one of `u2` the listing of `u1` then counts and returns both sales,
while without a search it returns the sale of `u1` only. -/
theorem user_sales_filter_drops_user :
    (SalesRepository.userSearchDoc sampleRuntime "u1" (some "address:jl")).toOption
      = some [("address", .regExp "jl" "i")] ∧
    (SalesService.getUserSales sampleRuntime twoBuyersDatabase "u1"
      ⟨1, 10, none, some "address:jl"⟩).toOption.map
        (fun r => (r.count, r.data.map (fun v => (v.id, v.user.map (fun u => u.id)))))
      = some (2, [("s1", some "u1"), ("s2", some "u2")]) ∧
    (SalesService.getUserSales sampleRuntime twoBuyersDatabase "u1"
      ⟨1, 10, none, none⟩).toOption.map
        (fun r => (r.count, r.data.map (fun v => (v.id, v.user.map (fun u => u.id)))))
      = some (1, [("s1", some "u1")]) := by
  refine ⟨by decide, by decide, by decide⟩

end Listing

namespace SalesController

open Listing

/-! ## Creating a sale -/

theorem find?_updateFirst_stock (id : String) (stock : Int) (l : List ProductDoc) :
    (updateFirst (fun p => p.id == id) (fun p => { p with stock := stock }) l).find?
        (fun p => p.id == id)
      = (l.find? (fun p => p.id == id)).map (fun p => { p with stock := stock }) := by
  induction l with
  | nil => rfl
  | cons a rest ih =>
    by_cases ha : a.id = id
    · simp [updateFirst, ha]
    · simp [updateFirst, ha, ih]

theorem find?_updateFirst_other (id other : String) (h : other ≠ id) (stock : Int)
    (l : List ProductDoc) :
    (updateFirst (fun p => p.id == id) (fun p => { p with stock := stock }) l).find?
        (fun p => p.id == other)
      = l.find? (fun p => p.id == other) := by
  induction l with
  | nil => rfl
  | cons a rest ih =>
    by_cases ha : a.id = id
    · have hne : ¬ a.id = other := fun e => h (e ▸ ha)
      simp [updateFirst, ha, List.find?_cons, h.symm]
    · by_cases hb : a.id = other
      · have hne : ¬ other = id := h
        simp [updateFirst, ha, hb, hne]
      · simp [updateFirst, ha, hb, ih]

theorem mem_updateFirst_stock (id : String) (stock : Int) (l : List ProductDoc)
    (x : ProductDoc)
    (hx : x ∈ updateFirst (fun p => p.id == id) (fun p => { p with stock := stock }) l) :
    x ∈ l ∨ x.stock = stock := by
  induction l with
  | nil => simp [updateFirst] at hx
  | cons a rest ih =>
    by_cases ha : a.id = id
    · simp only [updateFirst, ha, beq_self_eq_true, if_true, List.mem_cons] at hx
      rcases hx with hxa | hxr
      · right; rw [hxa]
      · left; exact List.mem_cons_of_mem a hxr
    · have hb : (a.id == id) = false := by simpa using ha
      simp only [updateFirst, hb, Bool.false_eq_true, if_false, List.mem_cons] at hx
      rcases hx with hxa | hxr
      · left; rw [hxa]; exact List.mem_cons_self a rest
      · rcases ih hxr with h | h
        · left; exact List.mem_cons_of_mem a h
        · right; exact h

theorem getProduct_id (db : Database) (id : String) (p : ProductDoc)
    (hp : ProductsRepository.getProduct db id = some p) : p.id = id := by
  have := List.find?_some hp
  simpa using this

theorem createSale_of_product (w : StoreWrites) (db : Database) (request : CreateSaleRequest)
    (p : ProductDoc) (hp : ProductsRepository.getProduct db request.product = some p) :
    createSale w db request =
      match UsersService.getUser db request.user with
      | none => (db, .unknownUser)
      | some _ =>
        if p.stock < request.quantity then (db, .notEnoughStock p.stock)
        else if w.createSucceeds = false then (db, .failedToCreateSale)
        else if w.updateSucceeds = false then
          (SalesRepository.createSale db w.saleId w.now request.product request.user
            request.quantity request.address, .failedToUpdateStock)
        else
          (ProductsRepository.updateStock
            (SalesRepository.createSale db w.saleId w.now request.product request.user
              request.quantity request.address)
            request.product (p.stock - request.quantity),
            .ok request.product request.user request.quantity request.address) := by
  have hid : p.id = request.product := getProduct_id db request.product p hp
  have hp₂ : ProductsRepository.getProduct
      (SalesRepository.createSale db w.saleId w.now request.product request.user
        request.quantity request.address) request.product = some p := hp
  have hvs : (ProductsService.view p).stock = p.stock := rfl
  have hvi : (ProductsService.view p).id = request.product := hid
  unfold createSale
  simp only [ProductsService.getProduct, hp, hvs, hvi]
  cases UsersService.getUser db request.user with
  | none => rfl
  | some u =>
    simp only []
    by_cases hlt : p.stock < request.quantity
    · simp only [hlt, if_true]
    · simp only [hlt, if_false]
      cases hc : w.createSucceeds with
      | false => simp [SalesService.createSale, hc]
      | true =>
        cases hu : w.updateSucceeds with
        | false => simp [SalesService.createSale, hc, ProductsService.updateStock, hp₂]
        | true => simp [SalesService.createSale, hc, ProductsService.updateStock, hp₂]

theorem createSale_of_no_product (w : StoreWrites) (db : Database)
    (request : CreateSaleRequest)
    (hp : ProductsRepository.getProduct db request.product = none) :
    createSale w db request = (db, .unknownProduct) := by
  unfold createSale
  simp only [ProductsService.getProduct, hp]

theorem createSale_stock_nonneg (w : StoreWrites) (db : Database)
    (request : CreateSaleRequest) (h : ∀ x ∈ db.products.docs, 0 ≤ x.stock) :
    ∀ x ∈ (createSale w db request).1.products.docs, 0 ≤ x.stock := by
  cases hp : ProductsRepository.getProduct db request.product with
  | none =>
    rw [createSale_of_no_product w db request hp]
    exact h
  | some p =>
    rw [createSale_of_product w db request p hp]
    cases UsersService.getUser db request.user with
    | none => exact h
    | some u =>
      simp only []
      by_cases hlt : p.stock < request.quantity
      · simp only [hlt, if_true]
        exact h
      · simp only [hlt, if_false]
        cases hc : w.createSucceeds with
        | false => simpa using h
        | true =>
          cases hu : w.updateSucceeds with
          | false => simpa [SalesRepository.createSale] using h
          | true =>
            intro x hx
            simp only [Bool.true_eq_false, if_false, ProductsRepository.updateStock,
              SalesRepository.createSale] at hx
            rcases mem_updateFirst_stock request.product (p.stock - request.quantity)
              db.products.docs x hx with hmem | hstock
            · exact h x hmem
            · rw [hstock]
              omega

theorem runSales_stock_nonneg (trace : List (StoreWrites × CreateSaleRequest))
    (db : Database) (h : ∀ x ∈ db.products.docs, 0 ≤ x.stock) :
    ∀ x ∈ (runSales db trace).products.docs, 0 ≤ x.stock := by
  induction trace generalizing db with
  | nil => exact h
  | cons step rest ih =>
    exact ih (createSale step.1 db step.2).1 (createSale_stock_nonneg step.1 db step.2 h)

/-- C21: for a request naming a product with stock `s` and asking for the quantity
`q`: a sale is added only if `q ≤ s`; if `s < q` the database is left as it was
(no sale, no stock change) and, the user being known, the answer is the error
"Not enough stock" quoting `s`; if `q ≤ s`, the user is known and the store
carries out the two writes, the answer is 200, the sale is added, the stock of
the product becomes `s - q`, which is not negative, and no other product
changes. Over any sequence of requests, whatever the store does with the
writes, stocks that are not negative stay so. -/
theorem createSale_stock (w : StoreWrites) (db : Database) (request : CreateSaleRequest) :
    (∀ p, ProductsRepository.getProduct db request.product = some p →
      ((createSale w db request).1.sales.docs ≠ db.sales.docs → request.quantity ≤ p.stock) ∧
      (p.stock < request.quantity →
        (createSale w db request).1 = db ∧
        ((UsersService.getUser db request.user).isSome = true →
          (createSale w db request).2 = .notEnoughStock p.stock)) ∧
      (request.quantity ≤ p.stock → (UsersService.getUser db request.user).isSome = true →
        w.createSucceeds = true → w.updateSucceeds = true →
        (createSale w db request).2
          = .ok request.product request.user request.quantity request.address ∧
        (createSale w db request).1.sales.docs = db.sales.docs ++
          [{ id := w.saleId, date := w.now, product := request.product, user := request.user
             quantity := request.quantity, address := request.address
             delivery_status := "Placed" }] ∧
        ProductsRepository.getProduct (createSale w db request).1 request.product
          = some { p with stock := p.stock - request.quantity } ∧
        0 ≤ p.stock - request.quantity ∧
        (∀ other, other ≠ request.product →
          ProductsRepository.getProduct (createSale w db request).1 other
            = ProductsRepository.getProduct db other))) ∧
    (∀ trace : List (StoreWrites × CreateSaleRequest),
      (∀ x ∈ db.products.docs, 0 ≤ x.stock) →
      ∀ x ∈ (runSales db trace).products.docs, 0 ≤ x.stock) := by
  refine ⟨?_, fun trace h => runSales_stock_nonneg trace db h⟩
  intro p hp
  have hlow : p.stock < request.quantity → (createSale w db request).1 = db ∧
      ((UsersService.getUser db request.user).isSome = true →
        (createSale w db request).2 = .notEnoughStock p.stock) := by
    intro hlt
    rw [createSale_of_product w db request p hp]
    cases UsersService.getUser db request.user with
    | none => simp
    | some u => simp [hlt]
  refine ⟨?_, hlow, ?_⟩
  · intro hne
    by_contra hq
    exact hne (by rw [(hlow (by omega)).1])
  · intro hq hu hc hup
    obtain ⟨u, hu⟩ := Option.isSome_iff_exists.mp hu
    have hlt : ¬ p.stock < request.quantity := by omega
    rw [createSale_of_product w db request p hp]
    simp only [hu, hlt, if_false, hc, hup, Bool.true_eq_false]
    refine ⟨trivial, rfl, ?_, by omega, ?_⟩
    · simp only [ProductsRepository.getProduct, ProductsRepository.updateStock,
        SalesRepository.createSale]
      rw [find?_updateFirst_stock]
      have hp' : db.products.docs.find? (fun p => p.id == request.product) = some p := hp
      rw [hp']
      rfl
    · intro other hother
      simp only [ProductsRepository.getProduct, ProductsRepository.updateStock,
        SalesRepository.createSale]
      rw [find?_updateFirst_other request.product other hother]

/-- C21 (witness): a product with stock 9; a sale of 4 leaves 5, then a request
for 6 is refused and the stock stays 5. -/
theorem createSale_stock_witness :
    (createSale ⟨"s2", 5, true, true⟩ (oneSaleDatabase "h") ⟨"p1", "u1", 4, "Jl. Melati 1"⟩).2
      = .ok "p1" "u1" 4 "Jl. Melati 1" ∧
    ProductsRepository.getProduct
      (createSale ⟨"s2", 5, true, true⟩ (oneSaleDatabase "h")
        ⟨"p1", "u1", 4, "Jl. Melati 1"⟩).1 "p1"
      = some { id := "p1", name := "Pen", price := 3, description := "blue"
               category := "office", stock := 9 - 4 } ∧
    (createSale ⟨"s3", 6, true, true⟩
      (createSale ⟨"s2", 5, true, true⟩ (oneSaleDatabase "h")
        ⟨"p1", "u1", 4, "Jl. Melati 1"⟩).1 ⟨"p1", "u1", 6, "Jl. Melati 1"⟩).2
      = .notEnoughStock 5 :=
  ⟨(((createSale_stock ⟨"s2", 5, true, true⟩ (oneSaleDatabase "h")
      ⟨"p1", "u1", 4, "Jl. Melati 1"⟩).1 _ rfl).2.2 (by decide) (by decide) rfl rfl).1,
    (((createSale_stock ⟨"s2", 5, true, true⟩ (oneSaleDatabase "h")
      ⟨"p1", "u1", 4, "Jl. Melati 1"⟩).1 _ rfl).2.2 (by decide) (by decide) rfl rfl).2.2.1,
    by decide⟩

end SalesController
